import Mathlib

/-!
Shallow embedding of `src/server.js` (a LightX proxy server).

The server registers two Express routes: a `GET /` healthcheck and the main
`POST /lightx/run-tool` handler.  The handler is an async function whose only
interactions with the outside world are HTTP requests made through axios
(a HEAD probe of the source image, LightX JSON POSTs, a GET of the image
bytes, a PUT to the upload slot) and `sleep` delays.  We model one execution
of the handler as a pure function of
  * the environment (`LIGHTX_API_KEY`),
  * the parsed JSON request body, and
  * a `World` describing the responses of every upstream call,
returning the HTTP response sent via `res` together with the ordered trace
of upstream effects (`Call` list).  JSON values are modelled by `Json`
(numbers as integers, which covers everything the handler inspects);
a JS `undefined` is `Option.none`.  An axios promise either resolves
(`AxiosResult.ok`, any status — all calls use `validateStatus: () => true`)
or rejects with a network error (`AxiosResult.netErr`); every rejection and
every explicit `throw` lands in the handler's single catch block.
-/

set_option autoImplicit false

namespace LightxProxy

/-- JSON values (numbers restricted to integers, which is faithful to every
value the handler reads: statuses, `statusCode`, `maxRetriesAllowed`). -/
inductive Json where
  | null
  | bool (b : Bool)
  | num (n : Int)
  | str (s : String)
  | arr (elems : List Json)
  | obj (fields : List (String × Json))

mutual

def Json.decEq : (a b : Json) → Decidable (a = b)
  | .null, .null => .isTrue rfl
  | .null, .bool _ => .isFalse nofun
  | .null, .num _ => .isFalse nofun
  | .null, .str _ => .isFalse nofun
  | .null, .arr _ => .isFalse nofun
  | .null, .obj _ => .isFalse nofun
  | .bool _, .null => .isFalse nofun
  | .bool x, .bool y =>
    if h : x = y then .isTrue (by rw [h]) else .isFalse (fun hh => by cases hh; exact h rfl)
  | .bool _, .num _ => .isFalse nofun
  | .bool _, .str _ => .isFalse nofun
  | .bool _, .arr _ => .isFalse nofun
  | .bool _, .obj _ => .isFalse nofun
  | .num _, .null => .isFalse nofun
  | .num _, .bool _ => .isFalse nofun
  | .num x, .num y =>
    if h : x = y then .isTrue (by rw [h]) else .isFalse (fun hh => by cases hh; exact h rfl)
  | .num _, .str _ => .isFalse nofun
  | .num _, .arr _ => .isFalse nofun
  | .num _, .obj _ => .isFalse nofun
  | .str _, .null => .isFalse nofun
  | .str _, .bool _ => .isFalse nofun
  | .str _, .num _ => .isFalse nofun
  | .str x, .str y =>
    if h : x = y then .isTrue (by rw [h]) else .isFalse (fun hh => by cases hh; exact h rfl)
  | .str _, .arr _ => .isFalse nofun
  | .str _, .obj _ => .isFalse nofun
  | .arr _, .null => .isFalse nofun
  | .arr _, .bool _ => .isFalse nofun
  | .arr _, .num _ => .isFalse nofun
  | .arr _, .str _ => .isFalse nofun
  | .arr xs, .arr ys =>
    match Json.decEqList xs ys with
    | .isTrue h => .isTrue (by rw [h])
    | .isFalse h => .isFalse (fun hh => by cases hh; exact h rfl)
  | .arr _, .obj _ => .isFalse nofun
  | .obj _, .null => .isFalse nofun
  | .obj _, .bool _ => .isFalse nofun
  | .obj _, .num _ => .isFalse nofun
  | .obj _, .str _ => .isFalse nofun
  | .obj _, .arr _ => .isFalse nofun
  | .obj fs, .obj gs =>
    match Json.decEqFields fs gs with
    | .isTrue h => .isTrue (by rw [h])
    | .isFalse h => .isFalse (fun hh => by cases hh; exact h rfl)

def Json.decEqList : (a b : List Json) → Decidable (a = b)
  | [], [] => .isTrue rfl
  | [], _ :: _ => .isFalse nofun
  | _ :: _, [] => .isFalse nofun
  | x :: xs, y :: ys =>
    match Json.decEq x y, Json.decEqList xs ys with
    | .isTrue h1, .isTrue h2 => .isTrue (by rw [h1, h2])
    | .isFalse h1, _ => .isFalse (fun hh => by cases hh; exact h1 rfl)
    | _, .isFalse h2 => .isFalse (fun hh => by cases hh; exact h2 rfl)

def Json.decEqFields : (a b : List (String × Json)) → Decidable (a = b)
  | [], [] => .isTrue rfl
  | [], _ :: _ => .isFalse nofun
  | _ :: _, [] => .isFalse nofun
  | (k, v) :: xs, (k', v') :: ys =>
    match String.decEq k k', Json.decEq v v', Json.decEqFields xs ys with
    | .isTrue hk, .isTrue hv, .isTrue ht => .isTrue (by rw [hk, hv, ht])
    | .isFalse hk, _, _ => .isFalse (fun hh => by cases hh; exact hk rfl)
    | _, .isFalse hv, _ => .isFalse (fun hh => by cases hh; exact hv rfl)
    | _, _, .isFalse ht => .isFalse (fun hh => by cases hh; exact ht rfl)

end

instance : DecidableEq Json := Json.decEq

/-- First binding of a key in a JS object, `none` for JS `undefined`. -/
def lookupField : List (String × Json) → String → Option Json
  | [], _ => none
  | (k, v) :: rest, key => if k = key then some v else lookupField rest key

/-- Property access `j.key` (undefined on non-objects, as for the
properties the handler reads). -/
def Json.get? : Json → String → Option Json
  | Json.obj fs, key => lookupField fs key
  | _, _ => none

/-- Optional-chained access `j.k1?.k2` as used by `toolResp.body?.orderId`
and friends: undefined when `j.k1` is undefined, null, or not an object. -/
def Json.get2? (j : Json) (k1 k2 : String) : Option Json :=
  match j.get? k1 with
  | some x => x.get? k2
  | none => none

/-- JS truthiness of a value. -/
def Json.truthy : Json → Bool
  | Json.null => false
  | Json.bool b => b
  | Json.num n => if n = 0 then false else true
  | Json.str s => if s = "" then false else true
  | Json.arr _ => true
  | Json.obj _ => true

/-- JS truthiness of a possibly-undefined value. -/
def Json.truthyOpt : Option Json → Bool
  | none => false
  | some j => Json.truthy j

/-- JS truthiness of a possibly-undefined string (headers). -/
def strTruthyOpt : Option String → Bool
  | none => false
  | some s => if s = "" then false else true

/-- Minimal JSON string escaping (quote and backslash; the handler only
embeds upstream bodies inside thrown error messages, which no check of the
spec inspects beyond one fixed literal). -/
def escapeChars : List Char → String
  | [] => ""
  | c :: rest =>
    (if c = '"' then "\\\"" else if c = '\\' then "\\\\" else String.singleton c)
      ++ escapeChars rest

def quoteStr (s : String) : String :=
  "\"" ++ escapeChars s.data ++ "\""

mutual
/-- `JSON.stringify`, used when the handler builds error messages. -/
def Json.stringify : Json → String
  | Json.null => "null"
  | Json.bool true => "true"
  | Json.bool false => "false"
  | Json.num n => toString n
  | Json.str s => quoteStr s
  | Json.arr l => "[" ++ stringifyElems l ++ "]"
  | Json.obj fs => "\x7b" ++ stringifyFields fs ++ "\x7d"

def stringifyElems : List Json → String
  | [] => ""
  | [j] => Json.stringify j
  | j :: rest => Json.stringify j ++ "," ++ stringifyElems rest

def stringifyFields : List (String × Json) → String
  | [] => ""
  | [(k, v)] => quoteStr k ++ ":" ++ Json.stringify v
  | (k, v) :: rest => quoteStr k ++ ":" ++ Json.stringify v ++ "," ++ stringifyFields rest
end

mutual
/-- JS template-literal stringification (used for `` `/${tool}` ``). -/
def jsTemplateStr : Json → String
  | Json.null => "null"
  | Json.bool true => "true"
  | Json.bool false => "false"
  | Json.num n => toString n
  | Json.str s => s
  | Json.arr l => templateElems l
  | Json.obj _ => "[object Object]"

def templateElems : List Json → String
  | [] => ""
  | [j] => jsTemplateStr j
  | j :: rest => jsTemplateStr j ++ "," ++ templateElems rest
end

/-- Leading JS whitespace skipped by `parseInt`. -/
def skipWs : List Char → List Char
  | [] => []
  | c :: rest =>
    if c = ' ' ∨ c = '\t' ∨ c = '\n' ∨ c = '\r' then skipWs rest else c :: rest

def digitsVal (cs : List Char) : Nat :=
  cs.foldl (fun a c => a * 10 + (c.toNat - 48)) 0

def leadingDigits (cs : List Char) : Option Nat :=
  let ds := cs.takeWhile Char.isDigit
  if ds.isEmpty then none else some (digitsVal ds)

/-- `parseInt(s, 10)`; `none` is JS `NaN`. -/
def jsParseInt (s : String) : Option Int :=
  match skipWs s.data with
  | '-' :: rest => (leadingDigits rest).map (fun n => -(n : Int))
  | '+' :: rest => (leadingDigits rest).map (fun n => (n : Int))
  | t => (leadingDigits t).map (fun n => (n : Int))

/-- `Number(s)` for a whole string (integer grammar only; `none` is `NaN`). -/
def jsNumOfStr (s : String) : Option Int :=
  let t := (skipWs (skipWs s.data).reverse).reverse
  match t with
  | [] => some 0
  | '-' :: rest => if rest ≠ [] ∧ rest.all Char.isDigit then some (-(digitsVal rest : Int)) else none
  | '+' :: rest => if rest ≠ [] ∧ rest.all Char.isDigit then some ((digitsVal rest : Int)) else none
  | cs => if cs.all Char.isDigit then some ((digitsVal cs : Int)) else none

/-- `const contentType = typeHeader || "image/jpeg";` -/
def defaultCT : Option String → String
  | none => "image/jpeg"
  | some s => if s = "" then "image/jpeg" else s

/-- The `size` field sent to `/uploadImageUrl`: `JSON.stringify` turns the
`NaN` produced by a failed `parseInt` into `null`. -/
def sizeJsonOf : Option Int → Json
  | some n => Json.num n
  | none => Json.null

/-- Build a JS object literal whose fields are `undefined`-droppable, as
`JSON.stringify` (hence `res.json`) drops `undefined`-valued keys. -/
def mkFields : List (String × Option Json) → List (String × Json)
  | [] => []
  | (k, some v) :: rest => (k, v) :: mkFields rest
  | (_, none) :: rest => mkFields rest

/-- Assignment `o[k] = v` on an object literal: replaces the value in place
if the key exists (JS keeps the original insertion position), else appends. -/
def objSet (fs : List (String × Json)) (k : String) (v : Json) : List (String × Json) :=
  if fs.any (fun p => p.1 = k) then
    fs.map (fun p => if p.1 = k then (k, v) else p)
  else
    fs ++ [(k, v)]

/-- Own enumerable properties contributed by `...x` in an object literal.
Objects contribute their fields, strings their indexed characters,
primitives nothing.  (Integer-like key reordering of JS objects is not
modelled; the handler never depends on field order of `params`.) -/
def spreadProps : Json → List (String × Json)
  | Json.obj fs => fs
  | Json.str s => s.data.enum.map (fun p => (toString p.1, Json.str (String.singleton p.2)))
  | _ => []

/-- `{ ...base, ...x }` evaluation: fold the spread properties of `x` over
the already-built fields `base`. -/
def spreadInto (base : List (String × Json)) (x : Json) : List (String × Json) :=
  (spreadProps x).foldl (fun acc kv => objSet acc kv.1 kv.2) base

/-- The body `{ imageUrl: finalImageUrl, ...params }` of the tool POST. -/
def toolBodyOf (params fu : Json) : Json :=
  Json.obj (spreadInto [("imageUrl", fu)] params)

/-- The body `{ uploadType: "imageUrl", size, contentType }` of the
`/uploadImageUrl` POST. -/
def mkUploadBody (sizeJ : Json) (ct : String) : Json :=
  Json.obj [("uploadType", Json.str "imageUrl"), ("size", sizeJ), ("contentType", Json.str ct)]

/-- Result of an awaited axios call: resolved (any status, since every call
passes `validateStatus: () => true`) or rejected with a network error. -/
inductive AxiosResult (α : Type) where
  | ok (resp : α)
  | netErr (msg : String)

/-- Response to `axios.head(imageUrl)`: status plus the two headers read
(axios lowercases header names). -/
structure HeadResp where
  status : Nat
  contentLength : Option String
  contentType : Option String
deriving DecidableEq

/-- Response to a LightX JSON POST: status and parsed body (`res.data`). -/
structure AxResp where
  status : Nat
  data : Json
deriving DecidableEq

/-- Response to the arraybuffer GET of the source image. -/
structure GetResp where
  status : Nat
  bytes : List Nat
deriving DecidableEq

/-- Response to the PUT of the bytes to the upload slot. -/
structure PutResp where
  status : Nat
  statusText : String
deriving DecidableEq

/-- Responses of every upstream service for one request; order-status
responses are indexed by poll number. -/
structure World where
  headResp : AxiosResult HeadResp
  uploadInitResp : AxiosResult AxResp
  text2imageResp : AxiosResult AxResp
  fileResp : AxiosResult GetResp
  putResp : AxiosResult PutResp
  toolResp : AxiosResult AxResp
  orderStatusResp : Nat → AxiosResult AxResp

/-- Process environment: `process.env.LIGHTX_API_KEY`. -/
structure Env where
  apiKey : Option String
deriving DecidableEq

/-- `if (!LIGHTX_API_KEY)`: the key is set and nonempty. -/
def envKeyTruthy (e : Env) : Bool :=
  match e.apiKey with
  | none => false
  | some s => if s = "" then false else true

/-- One upstream effect of the handler, in execution order. -/
inductive Call where
  | head (url : Json)
  | getBytes (url : Json)
  | put (url : Json) (body : List Nat)
  | lxPost (path : String) (body : Json)
  | sleep (ms : Nat)
deriving DecidableEq

/-- The HTTP response sent to the caller. -/
structure HttpOut where
  status : Nat
  body : Json
deriving DecidableEq

/-- The catch block: `res.status(500).json({ success: false, error:
err.message || "Unknown error" })`. -/
def err500 (m : String) : HttpOut :=
  ⟨500, Json.obj [("success", Json.bool false),
                  ("error", Json.str (if m = "" then "Unknown error" else m))]⟩

/-- Error message thrown by `lightxPost` on a non-2xx status. -/
def lxErrMsg (path : String) (st : Nat) (d : Json) : String :=
  "LightX " ++ path ++ " failed: HTTP " ++ toString st ++ " " ++ Json.stringify d

/-- `lightxPost`: reject on network error, throw on non-2xx, else return
`res.data`. -/
def lxResult (path : String) (r : AxiosResult AxResp) : Except String Json :=
  match r with
  | AxiosResult.netErr m => Except.error m
  | AxiosResult.ok a =>
    if a.status < 200 ∨ 300 ≤ a.status then Except.error (lxErrMsg path a.status a.data)
    else Except.ok a.data

/-- `retries = toolResp.body?.maxRetriesAllowed ?? 5`, then used as the loop
bound `i < retries`.  `??` keeps the default only for undefined/null; other
values are coerced by the numeric comparison (booleans to 0/1, strings and
singleton arrays through `Number`, objects to `NaN` hence zero iterations;
integer grammar only, as sent by the remote API). -/
def retriesFuel (toolData : Json) : Nat :=
  match Json.get2? toolData "body" "maxRetriesAllowed" with
  | none => 5
  | some Json.null => 5
  | some (Json.num m) => m.toNat
  | some (Json.bool b) => if b then 1 else 0
  | some (Json.str s) => match jsNumOfStr s with | some k => k.toNat | none => 0
  | some (Json.arr l) =>
      match l with
      | [] => 0
      | [Json.num m] => m.toNat
      | _ => 0
  | some (Json.obj _) => 0

/-- `status === "active" || status === "failed"` (the loop break test). -/
def isTermO : Option Json → Bool
  | some (Json.str "active") => true
  | some (Json.str "failed") => true
  | _ => false

/-- Outcome of the poll loop: an exception propagating to the catch block,
or normal exit with the final `status` and `statusResp` variables. -/
inductive PollExit where
  | thrown (msg : String)
  | done (status : Option Json) (statusResp : Option Json)
deriving DecidableEq

/-- The body `{ orderId }` of each order-status POST. -/
def pollBody (oid : Json) : Json :=
  Json.obj [("orderId", oid)]

/--
The poll loop
`for (let i = 0; i < retries; i++) { await sleep(3000);
 statusResp = await lightxPost("/order-status", { orderId });
 status = statusResp.body?.status;
 if (status === "active" || status === "failed") break; }`
as fuel recursion (`fuel` = remaining iterations, `i` = iteration index,
`st`/`sr` = the mutable `status`/`statusResp`).  Returns the exit and the
trace of effects of the loop. -/
def pollLoop (os : Nat → AxiosResult AxResp) (oid : Json) :
    Nat → Nat → Option Json → Option Json → PollExit × List Call
  | _, 0, st, sr => (PollExit.done st sr, [])
  | i, fuel + 1, _, _ =>
    let block := [Call.sleep 3000, Call.lxPost "/order-status" (pollBody oid)]
    match os i with
    | AxiosResult.netErr m => (PollExit.thrown m, block)
    | AxiosResult.ok a =>
      if a.status < 200 ∨ 300 ≤ a.status then
        (PollExit.thrown (lxErrMsg "/order-status" a.status a.data), block)
      else
        let st' := Json.get2? a.data "body" "status"
        if isTermO st' then
          (PollExit.done st' (some a.data), block)
        else
          let rest := pollLoop os oid (i + 1) fuel st' (some a.data)
          (rest.1, block ++ rest.2)

/-- `statusResp.body?.output` (guarded by `status === "active"`, under which
`statusResp` is always defined). -/
def outputOf : Option Json → Option Json
  | some d => Json.get2? d "body" "output"
  | none => none

/-- Step 6: run the poll loop, then either the non-active failure response
`{ success: false, tool, status, raw: statusResp }` or the final success
`{ success: true, tool, status, output: statusResp.body?.output }`
(undefined fields dropped by `res.json`). -/
def pipePoll (tool oid : Json) (fuel : Nat) (w : World) (acc : List Call) :
    HttpOut × List Call :=
  match pollLoop w.orderStatusResp oid 0 fuel none none with
  | (PollExit.thrown m, ptr) => (err500 m, acc ++ ptr)
  | (PollExit.done st sr, ptr) =>
    if st = some (Json.str "active") then
      (⟨200, Json.obj (mkFields [("success", some (Json.bool true)), ("tool", some tool),
                                 ("status", st), ("output", outputOf sr)])⟩, acc ++ ptr)
    else
      (⟨200, Json.obj (mkFields [("success", some (Json.bool false)), ("tool", some tool),
                                 ("status", st), ("raw", sr)])⟩, acc ++ ptr)

/-- Step 5: POST `/${tool}` with `{ imageUrl: finalImageUrl, ...params }`;
without an `orderId` in the reply, return the synchronous success response,
else poll. -/
def pipeTool (tool params fu : Json) (w : World) (acc : List Call) :
    HttpOut × List Call :=
  let toolPath := "/" ++ jsTemplateStr tool
  let tb := toolBodyOf params fu
  let acc1 := acc ++ [Call.lxPost toolPath tb]
  match lxResult toolPath w.toolResp with
  | Except.error m => (err500 m, acc1)
  | Except.ok d =>
    if Json.truthyOpt (Json.get2? d "body" "orderId") = false then
      (⟨200, Json.obj [("success", Json.bool true), ("tool", tool),
                       ("synchronous", Json.bool true), ("raw", d)]⟩, acc1)
    else
      pipePoll tool ((Json.get2? d "body" "orderId").getD Json.null) (retriesFuel d) w acc1

/-- Steps 3 and 4: GET the source bytes, PUT them to the upload slot. -/
def pipeGet (tool params uu fu u : Json) (w : World) (acc : List Call) :
    HttpOut × List Call :=
  let acc1 := acc ++ [Call.getBytes u]
  match w.fileResp with
  | AxiosResult.netErr m => (err500 m, acc1)
  | AxiosResult.ok f =>
    if f.status < 200 ∨ 300 ≤ f.status then
      (err500 ("Failed to GET Bubble image: HTTP " ++ toString f.status), acc1)
    else
      let acc2 := acc1 ++ [Call.put uu f.bytes]
      match w.putResp with
      | AxiosResult.netErr m => (err500 m, acc2)
      | AxiosResult.ok p =>
        if p.status < 200 ∨ 300 ≤ p.status then
          (err500 ("S3 upload failed: HTTP " ++ toString p.status ++ " " ++ p.statusText), acc2)
        else
          pipeTool tool params fu w acc2

/-- Step 2: POST `/uploadImageUrl`, check `statusCode === 2000` and the two
returned URLs. -/
def pipeUpload (tool params u : Json) (sizeJ : Json) (ct : String) (w : World)
    (acc : List Call) : HttpOut × List Call :=
  let upB := mkUploadBody sizeJ ct
  let acc1 := acc ++ [Call.lxPost "/uploadImageUrl" upB]
  match lxResult "/uploadImageUrl" w.uploadInitResp with
  | Except.error m => (err500 m, acc1)
  | Except.ok ui =>
    if ui.get? "statusCode" = some (Json.num 2000) then
      if Json.truthyOpt (Json.get2? ui "body" "uploadImage") = false
          ∨ Json.truthyOpt (Json.get2? ui "body" "imageUrl") = false then
        (err500 ("Missing uploadImage or imageUrl: " ++ Json.stringify ui), acc1)
      else
        pipeGet tool params ((Json.get2? ui "body" "uploadImage").getD Json.null)
          ((Json.get2? ui "body" "imageUrl").getD Json.null) u w acc1
    else
      (err500 ("uploadImageUrl statusCode != 2000: " ++ Json.stringify ui), acc1)

/-- Step 1: HEAD the source image, read `content-length`/`content-type`. -/
def pipeHead (tool params u : Json) (w : World) (acc : List Call) :
    HttpOut × List Call :=
  let acc1 := acc ++ [Call.head u]
  match w.headResp with
  | AxiosResult.netErr m => (err500 m, acc1)
  | AxiosResult.ok h =>
    if h.status < 200 ∨ 300 ≤ h.status then
      (err500 ("Could not read image headers: HTTP " ++ toString h.status), acc1)
    else if strTruthyOpt h.contentLength = false then
      (err500 "Bubble image has no Content-Length header", acc1)
    else
      pipeUpload tool params u (sizeJsonOf (jsParseInt (h.contentLength.getD "")))
        (defaultCT h.contentType) w acc1

/-- The `POST /lightx/run-tool` handler: one execution on request body `b`
under environment `e` and upstream behaviour `w`, returning the response
sent and the ordered trace of upstream effects. -/
def runTool (e : Env) (b : Json) (w : World) : HttpOut × List Call :=
  let tool? := b.get? "tool"
  let params := (b.get? "params").getD (Json.obj [])
  if envKeyTruthy e = false then
    (⟨500, Json.obj [("success", Json.bool false),
                     ("error", Json.str "LIGHTX_API_KEY is not set")]⟩, [])
  else if Json.truthyOpt tool? = false then
    (⟨400, Json.obj [("success", Json.bool false),
                     ("error", Json.str "tool is required")]⟩, [])
  else
    let tool := tool?.getD Json.null
    if tool = Json.str "text2image" then
      match lxResult "/text2image" w.text2imageResp with
      | Except.error m => (err500 m, [Call.lxPost "/text2image" params])
      | Except.ok d =>
        (⟨200, Json.obj [("success", Json.bool true), ("tool", tool), ("raw", d)]⟩,
         [Call.lxPost "/text2image" params])
    else if Json.truthyOpt (b.get? "imageUrl") = false then
      (⟨400, Json.obj [("success", Json.bool false),
                       ("error", Json.str "imageUrl is required for this tool")]⟩, [])
    else
      pipeHead tool params ((b.get? "imageUrl").getD Json.null) w []

/-- HTTP method of a registered route. -/
inductive Method where
  | get
  | post
deriving DecidableEq

/-- The routes registered on the Express app, in registration order:
`app.get("/")` and `app.post("/lightx/run-tool")`. -/
def routes : List (Method × String) :=
  [(Method.get, "/"), (Method.post, "/lightx/run-tool")]

/-- Body of the `GET /` healthcheck response. -/
def healthBody : String := "LightX proxy is running"

/-- The request-body fields the handler destructures:
`const { imageUrl, tool, params = {} } = req.body`. -/
def bodyProj (b : Json) : Option Json × Option Json × Option Json :=
  (b.get? "imageUrl", b.get? "tool", b.get? "params")

/-- A server run over a sequence of requests: the source keeps no state
between handler executions (its only module-level bindings are constants),
so each request is handled independently. -/
def handleSeq (e : Env) (reqs : List (Json × World)) : List (HttpOut × List Call) :=
  reqs.map (fun rw => runTool e rw.1 rw.2)

/-! ### Concrete sample inputs (used by witnesses and counterexamples) -/

/-- Environment with the API key set. -/
def sampleEnv : Env := ⟨some "test-key"⟩

/-- A successful HEAD response with both headers present. -/
def goodHead : AxiosResult HeadResp := AxiosResult.ok ⟨200, some "10", some "image/png"⟩

/-- A successful `/uploadImageUrl` response. -/
def goodUploadInit : AxiosResult AxResp :=
  AxiosResult.ok ⟨200, Json.obj
    [("statusCode", Json.num 2000),
     ("body", Json.obj [("uploadImage", Json.str "https://up.example/slot"),
                        ("imageUrl", Json.str "https://cdn.example/final")])]⟩

/-- A successful arraybuffer GET of the source image. -/
def goodFile : AxiosResult GetResp := AxiosResult.ok ⟨200, [7, 7]⟩

/-- A successful PUT to the upload slot. -/
def goodPut : AxiosResult PutResp := AxiosResult.ok ⟨200, "OK"⟩

/-- A tool response carrying an order id and the given retry bound field. -/
def orderToolBody (retriesField : Option Json) : Json :=
  Json.obj [("body", Json.obj (mkFields
    [("orderId", some (Json.str "ord-1")), ("maxRetriesAllowed", retriesField)]))]

/-- An order-status response with a non-terminal status. -/
def pendingStatus : AxiosResult AxResp :=
  AxiosResult.ok ⟨200, Json.obj [("body", Json.obj [("status", Json.str "init")])]⟩

/-- An order-status response with terminal status `failed`. -/
def failedStatus : AxiosResult AxResp :=
  AxiosResult.ok ⟨200, Json.obj [("body", Json.obj [("status", Json.str "failed")])]⟩

/-- An order-status response with terminal status `active` and an output. -/
def activeStatus : AxiosResult AxResp :=
  AxiosResult.ok ⟨200, Json.obj [("body", Json.obj
    [("status", Json.str "active"), ("output", Json.str "https://cdn.example/out")])]⟩

/-- World for the asynchronous pipeline with the given tool response body and
order-status behaviour. -/
def asyncWorld (toolBody : Json) (os : Nat → AxiosResult AxResp) : World :=
  ⟨goodHead, goodUploadInit, AxiosResult.netErr "unused", goodFile, goodPut,
   AxiosResult.ok ⟨200, toolBody⟩, os⟩

/-- Request body for an asynchronous tool. -/
def sampleBody : Json :=
  Json.obj [("imageUrl", Json.str "https://bubble.example/img"), ("tool", Json.str "cartoon")]

/-- Request body for the text2image special case (no image URL). -/
def t2iBody : Json :=
  Json.obj [("tool", Json.str "text2image"),
            ("params", Json.obj [("textPrompt", Json.str "a cat")])]

/-- World for a text2image request. -/
def t2iWorld : World :=
  ⟨AxiosResult.netErr "unused", AxiosResult.netErr "unused",
   AxiosResult.ok ⟨200, Json.obj [("ok", Json.bool true)]⟩,
   AxiosResult.netErr "unused", AxiosResult.netErr "unused",
   AxiosResult.netErr "unused", fun _ => AxiosResult.netErr "unused"⟩

/-! ### Observations on traces and responses -/

/-- A poll query: the order-status POST with body `{ orderId: ... }`.
Only the poll loop issues calls of this shape: every other LightX POST has
a different path or a body that always carries an `imageUrl` key. -/
def isPollCall : Call → Bool
  | Call.lxPost p (Json.obj [(k, _)]) => p == "/order-status" && k == "orderId"
  | _ => false

/-- A `sleep` delay (not an HTTP request). -/
def isSleepCall : Call → Bool
  | Call.sleep _ => true
  | _ => false

/-- An upstream HTTP request other than the repeated poll queries. -/
def nonPollSleep (c : Call) : Bool :=
  !(isPollCall c) && !(isSleepCall c)

/-- Number of order-status queries in a trace. -/
def statusCalls (tr : List Call) : Nat :=
  tr.countP (fun c => isPollCall c)

/-- Delay-then-check discipline: every poll query in the trace is
immediately preceded by a 3000 ms sleep (`prev` is the previous call). -/
def dtcFrom : Option Call → List Call → Bool
  | _, [] => true
  | prev, c :: rest =>
    (if isPollCall c = true then
       (match prev with
        | some (Call.sleep 3000) => true
        | _ => false)
     else true)
      && dtcFrom (some c) rest

/-- The trace of `k` poll iterations: sleep then query, `k` times. -/
def pollTraceN (oid : Json) : Nat → List Call
  | 0 => []
  | k + 1 =>
    Call.sleep 3000 :: Call.lxPost "/order-status" (pollBody oid) :: pollTraceN oid k

/-- An order-status response on which the loop continues: the call resolved
with a 2xx status and the job status is not terminal. -/
def okNT : AxiosResult AxResp → Bool
  | AxiosResult.netErr _ => false
  | AxiosResult.ok a =>
    (decide (200 ≤ a.status) && decide (a.status < 300))
      && !(isTermO (Json.get2? a.data "body" "status"))

/-- An order-status response reporting a terminal job status
(`active` or `failed`). -/
def isTerminalStep : AxiosResult AxResp → Bool
  | AxiosResult.netErr _ => false
  | AxiosResult.ok a =>
    (decide (200 ≤ a.status) && decide (a.status < 300))
      && isTermO (Json.get2? a.data "body" "status")

/-- `res.data` of the tool invocation (null if the call never resolved). -/
def toolDataOf (w : World) : Json :=
  match w.toolResp with
  | AxiosResult.ok a => a.data
  | AxiosResult.netErr _ => Json.null

/-- The `maxRetriesAllowed` field of the remote tool response. -/
def toolRetriesField (w : World) : Option Json :=
  Json.get2? (toolDataOf w) "body" "maxRetriesAllowed"

/-- The bytes served by the source-image GET. -/
def fileBytesOf (w : World) : List Nat :=
  match w.fileResp with
  | AxiosResult.ok f => f.bytes
  | AxiosResult.netErr _ => []

/-- Response shape of the catch block and of the two validation errors:
`{ success: false, error: <message> }` with status 400 or 500. -/
def errShape (r : HttpOut) : Prop :=
  ∃ m, (r.status = 400 ∨ r.status = 500) ∧
    r.body = Json.obj [("success", Json.bool false), ("error", Json.str m)]

/-- Response shape of the text2image branch. -/
def rawShape (r : HttpOut) : Prop :=
  ∃ t raw, r = ⟨200, Json.obj [("success", Json.bool true), ("tool", t), ("raw", raw)]⟩

/-- Response shape of the synchronous-tool branch. -/
def syncShape (r : HttpOut) : Prop :=
  ∃ t raw, r = ⟨200, Json.obj [("success", Json.bool true), ("tool", t),
                               ("synchronous", Json.bool true), ("raw", raw)]⟩

/-- Response shape of the non-active poll exit (optional fields dropped when
the loop never ran). -/
def pollFailShape (r : HttpOut) : Prop :=
  ∃ t st sr, r = ⟨200, Json.obj (mkFields
    [("success", some (Json.bool false)), ("tool", some t),
     ("status", st), ("raw", sr)])⟩

/-- Response shape of the active poll exit (output dropped when the status
body has none). -/
def pollOkShape (r : HttpOut) : Prop :=
  ∃ t out, r = ⟨200, Json.obj (mkFields
    [("success", some (Json.bool true)), ("tool", some t),
     ("status", some (Json.str "active")), ("output", out)])⟩

/-- Every response of the handler has one of the five shapes built by the
source. -/
def respShape (r : HttpOut) : Prop :=
  errShape r ∨ rawShape r ∨ syncShape r ∨ pollFailShape r ∨ pollOkShape r

/-! ### Basic lemmas about the observations -/

@[simp] theorem isPollCall_head (u : Json) : isPollCall (Call.head u) = false := rfl

@[simp] theorem isPollCall_getBytes (u : Json) : isPollCall (Call.getBytes u) = false := rfl

@[simp] theorem isPollCall_put (u : Json) (b : List Nat) : isPollCall (Call.put u b) = false := rfl

@[simp] theorem isPollCall_sleep (n : Nat) : isPollCall (Call.sleep n) = false := rfl

@[simp] theorem isPollCall_poll (oid : Json) :
    isPollCall (Call.lxPost "/order-status" (pollBody oid)) = true := by
  simp [isPollCall, pollBody]

@[simp] theorem isPollCall_upload (p : String) (sj : Json) (ct : String) :
    isPollCall (Call.lxPost p (mkUploadBody sj ct)) = false := rfl

@[simp] theorem isPollCall_t2i (params : Json) :
    isPollCall (Call.lxPost "/text2image" params) = false := by
  rcases params with _ | b | n | s | l | fs <;> try rfl
  rcases fs with _ | ⟨⟨k, v⟩, rest⟩
  · rfl
  rcases rest with _ | _
  · simp [isPollCall]
  · rfl

@[simp] theorem isSleepCall_sleep (n : Nat) : isSleepCall (Call.sleep n) = true := rfl

theorem statusCalls_nil : statusCalls [] = 0 := rfl

theorem statusCalls_append (l1 l2 : List Call) :
    statusCalls (l1 ++ l2) = statusCalls l1 + statusCalls l2 := by
  simp [statusCalls, List.countP_append]

theorem statusCalls_cons (c : Call) (l : List Call) :
    statusCalls (c :: l) = statusCalls l + (if isPollCall c = true then 1 else 0) := by
  simp [statusCalls, List.countP_cons]

theorem statusCalls_pollTraceN (oid : Json) : ∀ k, statusCalls (pollTraceN oid k) = k := by
  intro k
  induction k with
  | zero => rfl
  | succ n ih =>
    rw [pollTraceN, statusCalls_cons, statusCalls_cons, ih]
    simp

theorem dtcFrom_cons_nonpoll (q : Option Call) (c : Call) (l : List Call)
    (hc : isPollCall c = false) : dtcFrom q (c :: l) = dtcFrom (some c) l := by
  simp [dtcFrom, hc]

theorem dtcFrom_pollTraceN (oid : Json) : ∀ k q, dtcFrom q (pollTraceN oid k) = true := by
  intro k
  induction k with
  | zero => intro q; rfl
  | succ n ih =>
    intro q
    rw [pollTraceN, dtcFrom_cons_nonpoll _ _ _ (isPollCall_sleep 3000)]
    simp [dtcFrom, ih]

theorem dtcFrom_append_nonpoll (pre : List Call) (tail : List Call)
    (h : ∀ c ∈ pre, isPollCall c = false) (htail : ∀ q, dtcFrom q tail = true) :
    ∀ q, dtcFrom q (pre ++ tail) = true := by
  induction pre with
  | nil => intro q; simpa using htail q
  | cons c rest ih =>
    intro q
    rw [List.cons_append, dtcFrom_cons_nonpoll _ _ _ (h c (by simp))]
    exact ih (fun c' hc' => h c' (by simp [hc'])) (some c)

theorem filter_pollTraceN (oid : Json) : ∀ k, (pollTraceN oid k).filter nonPollSleep = [] := by
  intro k
  induction k with
  | zero => rfl
  | succ n ih => simp [pollTraceN, List.filter, nonPollSleep, ih]

/-! ### The body of the tool POST always carries an `imageUrl` key -/

theorem map_fst_replace (fs : List (String × Json)) (k : String) (v : Json) :
    (fs.map (fun p => if p.1 = k then (k, v) else p)).map Prod.fst = fs.map Prod.fst := by
  induction fs with
  | nil => rfl
  | cons p rest ih =>
    simp only [List.map_cons, ih]
    by_cases h : p.1 = k <;> simp [h]

theorem mem_keys_objSet (fs : List (String × Json)) (k0 k : String) (v : Json)
    (h : k0 ∈ fs.map Prod.fst) : k0 ∈ (objSet fs k v).map Prod.fst := by
  unfold objSet
  split
  · rwa [map_fst_replace]
  · simp [h]

theorem mem_keys_foldl (l : List (String × Json)) :
    ∀ (base : List (String × Json)) (k0 : String), k0 ∈ base.map Prod.fst →
      k0 ∈ (l.foldl (fun acc kv => objSet acc kv.1 kv.2) base).map Prod.fst := by
  induction l with
  | nil => intro base k0 h; simpa using h
  | cons kv rest ih =>
    intro base k0 h
    exact ih _ _ (mem_keys_objSet _ _ _ _ h)

theorem mem_keys_toolBody (params fu : Json) :
    "imageUrl" ∈ (spreadInto [("imageUrl", fu)] params).map Prod.fst := by
  unfold spreadInto
  exact mem_keys_foldl _ _ _ (by simp)

@[simp] theorem isPollCall_toolBody (p : String) (params fu : Json) :
    isPollCall (Call.lxPost p (toolBodyOf params fu)) = false := by
  have h := mem_keys_toolBody params fu
  unfold toolBodyOf
  rcases hfs : spreadInto [("imageUrl", fu)] params with _ | ⟨⟨k, v⟩, rest⟩
  · rfl
  · rw [hfs] at h
    rcases rest with _ | _
    · simp at h
      subst h
      simp [isPollCall]
    · rfl

theorem upBody_ne_toolBody (sj : Json) (ct : String) (params fu : Json) :
    mkUploadBody sj ct ≠ toolBodyOf params fu := by
  intro h
  have hm := mem_keys_toolBody params fu
  have h' : Json.obj [("uploadType", Json.str "imageUrl"), ("size", sj), ("contentType", Json.str ct)]
      = Json.obj (spreadInto [("imageUrl", fu)] params) := h
  injection h' with h2
  rw [← h2] at hm
  simp at hm

/-! ### Specification of the poll loop -/

/-- The poll loop makes `k ≤ fuel` queries (at least one when it has fuel),
its trace is `k` sleep-then-query blocks, and before every query but the
last the observed response was a successful non-terminal one. -/
theorem pollLoop_spec (os : Nat → AxiosResult AxResp) (oid : Json) :
    ∀ fuel i st sr, ∃ k, k ≤ fuel ∧ (1 ≤ fuel → 1 ≤ k) ∧
      (pollLoop os oid i fuel st sr).2 = pollTraceN oid k ∧
      (∀ j, j + 1 < k → okNT (os (i + j)) = true) := by
  intro fuel
  induction fuel with
  | zero =>
    intro i st sr
    exact ⟨0, le_refl 0, by omega, rfl, fun j hj => absurd hj (by omega)⟩
  | succ n ih =>
    intro i st sr
    cases hos : os i with
    | netErr m =>
      refine ⟨1, by omega, fun _ => le_refl 1, ?_, fun j hj => absurd hj (by omega)⟩
      simp [pollLoop, hos, pollTraceN]
    | ok a =>
      by_cases hst : a.status < 200 ∨ 300 ≤ a.status
      · refine ⟨1, by omega, fun _ => le_refl 1, ?_, fun j hj => absurd hj (by omega)⟩
        simp [pollLoop, hos, hst, pollTraceN]
      · by_cases hterm : isTermO (Json.get2? a.data "body" "status") = true
        · refine ⟨1, by omega, fun _ => le_refl 1, ?_, fun j hj => absurd hj (by omega)⟩
          simp [pollLoop, hos, hst, hterm, pollTraceN]
        · obtain ⟨k, hk, _, htr, hcond⟩ :=
            ih (i + 1) (Json.get2? a.data "body" "status") (some a.data)
          refine ⟨k + 1, by omega, fun _ => by omega, ?_, ?_⟩
          · simp only [pollLoop, hos, if_neg hst, if_neg hterm]
            rw [pollTraceN]
            simp [htr]
          · intro j hj
            match j with
            | 0 =>
              have h1 : 200 ≤ a.status ∧ a.status < 300 := by omega
              simp [okNT, hos, h1.1, h1.2, hterm]
            | jj + 1 =>
              have := hcond jj (by omega)
              rwa [show i + 1 + jj = i + (jj + 1) by omega] at this

/-- The trace of `pipePoll` is the accumulator followed by the loop trace,
whatever the exit. -/
theorem pipePoll_trace (tool oid : Json) (fuel : Nat) (w : World) (acc : List Call) :
    (pipePoll tool oid fuel w acc).2
      = acc ++ (pollLoop w.orderStatusResp oid 0 fuel none none).2 := by
  unfold pipePoll
  rcases h : pollLoop w.orderStatusResp oid 0 fuel none none with ⟨ex, ptr⟩
  cases ex with
  | thrown m => simp
  | done st sr =>
    simp only
    split <;> simp

/-- The response of `pipePoll` is a catch-block error, a non-active failure,
or the final active success. -/
theorem pipePoll_shape (tool oid : Json) (fuel : Nat) (w : World) (acc : List Call) :
    errShape (pipePoll tool oid fuel w acc).1 ∨ pollFailShape (pipePoll tool oid fuel w acc).1
      ∨ pollOkShape (pipePoll tool oid fuel w acc).1 := by
  unfold pipePoll
  rcases h : pollLoop w.orderStatusResp oid 0 fuel none none with ⟨ex, ptr⟩
  cases ex with
  | thrown m =>
    left
    exact ⟨(if m = "" then "Unknown error" else m), Or.inr rfl, rfl⟩
  | done st sr =>
    simp only
    by_cases hst : st = some (Json.str "active")
    · right; right
      rw [if_pos hst]
      exact ⟨tool, outputOf sr, by rw [hst]⟩
    · right; left
      rw [if_neg hst]
      exact ⟨tool, st, sr, rfl⟩

/-- Combined facts about `pipePoll`: trace decomposition, query bound,
delay-then-check, no non-poll requests, non-terminal continuation, and
response shape. -/
theorem pipePoll_facts (tool oid : Json) (fuel : Nat) (w : World) (acc : List Call) :
    ∃ tail, (pipePoll tool oid fuel w acc).2 = acc ++ tail ∧
      statusCalls tail ≤ fuel ∧
      (∀ q, dtcFrom q tail = true) ∧
      tail.filter nonPollSleep = [] ∧
      (∀ j, j + 1 < statusCalls tail → okNT (w.orderStatusResp j) = true) ∧
      (errShape (pipePoll tool oid fuel w acc).1
        ∨ pollFailShape (pipePoll tool oid fuel w acc).1
        ∨ pollOkShape (pipePoll tool oid fuel w acc).1) := by
  obtain ⟨k, hk, _, htr, hcond⟩ := pollLoop_spec w.orderStatusResp oid fuel 0 none none
  refine ⟨(pollLoop w.orderStatusResp oid 0 fuel none none).2,
    pipePoll_trace tool oid fuel w acc, ?_, ?_, ?_, ?_, pipePoll_shape tool oid fuel w acc⟩
  · rw [htr, statusCalls_pollTraceN]; exact hk
  · rw [htr]; exact dtcFrom_pollTraceN oid k
  · rw [htr]; exact filter_pollTraceN oid k
  · rw [htr, statusCalls_pollTraceN]
    intro j hj
    simpa using hcond j hj

theorem errShape_err500 (m : String) : errShape (err500 m) :=
  ⟨(if m = "" then "Unknown error" else m), Or.inr rfl, rfl⟩

/-- Facts about the tool-invocation stage: its trace extends the
accumulator with the tool POST and then at most the poll trace; query
bound, delay-then-check, non-terminal continuation and response shape. -/
theorem pipeTool_facts (tool params fu : Json) (w : World) (acc : List Call) :
    ∃ tail, (pipeTool tool params fu w acc).2 = acc ++ tail ∧
      statusCalls tail ≤ retriesFuel (toolDataOf w) ∧
      (∀ q, dtcFrom q tail = true) ∧
      (∀ j, j + 1 < statusCalls tail → okNT (w.orderStatusResp j) = true) ∧
      (errShape (pipeTool tool params fu w acc).1
        ∨ syncShape (pipeTool tool params fu w acc).1
        ∨ pollFailShape (pipeTool tool params fu w acc).1
        ∨ pollOkShape (pipeTool tool params fu w acc).1) := by
  have h0 : statusCalls [Call.lxPost ("/" ++ jsTemplateStr tool) (toolBodyOf params fu)] = 0 := by
    simp [statusCalls]
  cases hw : w.toolResp with
  | netErr m =>
    have hpt : pipeTool tool params fu w acc
        = (err500 m, acc ++ [Call.lxPost ("/" ++ jsTemplateStr tool) (toolBodyOf params fu)]) := by
      simp [pipeTool, lxResult, hw]
    refine ⟨_, by rw [hpt], by rw [h0]; exact Nat.zero_le _,
      fun q => by simp [dtcFrom],
      fun j hj => by rw [h0] at hj; exact absurd hj (by omega),
      Or.inl (by rw [hpt]; exact errShape_err500 m)⟩
  | ok a =>
    by_cases hst : a.status < 200 ∨ 300 ≤ a.status
    · have hpt : pipeTool tool params fu w acc
          = (err500 (lxErrMsg ("/" ++ jsTemplateStr tool) a.status a.data),
             acc ++ [Call.lxPost ("/" ++ jsTemplateStr tool) (toolBodyOf params fu)]) := by
        simp [pipeTool, lxResult, hw, hst]
      refine ⟨_, by rw [hpt], by rw [h0]; exact Nat.zero_le _,
        fun q => by simp [dtcFrom],
        fun j hj => by rw [h0] at hj; exact absurd hj (by omega),
        Or.inl (by rw [hpt]; exact errShape_err500 _)⟩
    · by_cases hoid : Json.truthyOpt (Json.get2? a.data "body" "orderId") = false
      · have hpt : pipeTool tool params fu w acc
            = (⟨200, Json.obj [("success", Json.bool true), ("tool", tool),
                               ("synchronous", Json.bool true), ("raw", a.data)]⟩,
               acc ++ [Call.lxPost ("/" ++ jsTemplateStr tool) (toolBodyOf params fu)]) := by
          simp [pipeTool, lxResult, hw, hst, hoid]
        refine ⟨_, by rw [hpt], by rw [h0]; exact Nat.zero_le _,
          fun q => by simp [dtcFrom],
          fun j hj => by rw [h0] at hj; exact absurd hj (by omega),
          Or.inr (Or.inl (by rw [hpt]; exact ⟨tool, a.data, rfl⟩))⟩
      · have hpt : pipeTool tool params fu w acc
            = pipePoll tool ((Json.get2? a.data "body" "orderId").getD Json.null)
                (retriesFuel a.data) w
                (acc ++ [Call.lxPost ("/" ++ jsTemplateStr tool) (toolBodyOf params fu)]) := by
          simp [pipeTool, lxResult, hw, hst, hoid]
        have hdata : toolDataOf w = a.data := by simp [toolDataOf, hw]
        obtain ⟨tail', htr', hsc', hdtc', _, hok', hsh'⟩ :=
          pipePoll_facts tool ((Json.get2? a.data "body" "orderId").getD Json.null)
            (retriesFuel a.data) w
            (acc ++ [Call.lxPost ("/" ++ jsTemplateStr tool) (toolBodyOf params fu)])
        have hsc2 : statusCalls (Call.lxPost ("/" ++ jsTemplateStr tool) (toolBodyOf params fu)
            :: tail') = statusCalls tail' := by
          rw [statusCalls_cons]
          simp
        refine ⟨Call.lxPost ("/" ++ jsTemplateStr tool) (toolBodyOf params fu) :: tail',
          ?_, ?_, ?_, ?_, ?_⟩
        · rw [hpt, htr', List.append_assoc]
          rfl
        · rw [hsc2, hdata]
          exact hsc'
        · intro q
          rw [dtcFrom_cons_nonpoll _ _ _ (isPollCall_toolBody _ _ _)]
          exact hdtc' _
        · intro j hj
          rw [hsc2] at hj
          exact hok' j hj
        · rw [hpt]
          rcases hsh' with h | h | h
          · exact Or.inl h
          · exact Or.inr (Or.inr (Or.inl h))
          · exact Or.inr (Or.inr (Or.inr h))

/-- Facts about the fetch-and-transfer stage (source GET then slot PUT). -/
theorem pipeGet_facts (tool params uu fu u : Json) (w : World) (acc : List Call) :
    ∃ tail, (pipeGet tool params uu fu u w acc).2 = acc ++ tail ∧
      statusCalls tail ≤ retriesFuel (toolDataOf w) ∧
      (∀ q, dtcFrom q tail = true) ∧
      (∀ j, j + 1 < statusCalls tail → okNT (w.orderStatusResp j) = true) ∧
      (errShape (pipeGet tool params uu fu u w acc).1
        ∨ syncShape (pipeGet tool params uu fu u w acc).1
        ∨ pollFailShape (pipeGet tool params uu fu u w acc).1
        ∨ pollOkShape (pipeGet tool params uu fu u w acc).1) := by
  have h0 : statusCalls [Call.getBytes u] = 0 := by simp [statusCalls]
  cases hf : w.fileResp with
  | netErr m =>
    have hpt : pipeGet tool params uu fu u w acc = (err500 m, acc ++ [Call.getBytes u]) := by
      simp [pipeGet, hf]
    exact ⟨_, by rw [hpt], by rw [h0]; exact Nat.zero_le _, fun q => by simp [dtcFrom],
      fun j hj => by rw [h0] at hj; exact absurd hj (by omega),
      Or.inl (by rw [hpt]; exact errShape_err500 m)⟩
  | ok f =>
    by_cases hfs : f.status < 200 ∨ 300 ≤ f.status
    · have hpt : pipeGet tool params uu fu u w acc
          = (err500 ("Failed to GET Bubble image: HTTP " ++ toString f.status),
             acc ++ [Call.getBytes u]) := by
        simp [pipeGet, hf, hfs]
      exact ⟨_, by rw [hpt], by rw [h0]; exact Nat.zero_le _, fun q => by simp [dtcFrom],
        fun j hj => by rw [h0] at hj; exact absurd hj (by omega),
        Or.inl (by rw [hpt]; exact errShape_err500 _)⟩
    · have h1 : statusCalls [Call.getBytes u, Call.put uu f.bytes] = 0 := by simp [statusCalls]
      cases hp : w.putResp with
      | netErr m =>
        have hpt : pipeGet tool params uu fu u w acc
            = (err500 m, (acc ++ [Call.getBytes u]) ++ [Call.put uu f.bytes]) := by
          simp [pipeGet, hf, hfs, hp]
        refine ⟨[Call.getBytes u, Call.put uu f.bytes], ?_, by rw [h1]; exact Nat.zero_le _,
          fun q => by simp [dtcFrom],
          fun j hj => by rw [h1] at hj; exact absurd hj (by omega),
          Or.inl (by rw [hpt]; exact errShape_err500 m)⟩
        rw [hpt]
        simp
      | ok pr =>
        by_cases hps : pr.status < 200 ∨ 300 ≤ pr.status
        · have hpt : pipeGet tool params uu fu u w acc
              = (err500 ("S3 upload failed: HTTP " ++ toString pr.status ++ " " ++ pr.statusText),
                 (acc ++ [Call.getBytes u]) ++ [Call.put uu f.bytes]) := by
            simp [pipeGet, hf, hfs, hp, hps]
          refine ⟨[Call.getBytes u, Call.put uu f.bytes], ?_, by rw [h1]; exact Nat.zero_le _,
            fun q => by simp [dtcFrom],
            fun j hj => by rw [h1] at hj; exact absurd hj (by omega),
            Or.inl (by rw [hpt]; exact errShape_err500 _)⟩
          rw [hpt]
          simp
        · have hpt : pipeGet tool params uu fu u w acc
              = pipeTool tool params fu w ((acc ++ [Call.getBytes u]) ++ [Call.put uu f.bytes]) := by
            simp [pipeGet, hf, hfs, hp, hps]
          obtain ⟨tail', htr', hsc', hdtc', hok', hsh'⟩ :=
            pipeTool_facts tool params fu w ((acc ++ [Call.getBytes u]) ++ [Call.put uu f.bytes])
          have hsc2 : statusCalls (Call.getBytes u :: Call.put uu f.bytes :: tail')
              = statusCalls tail' := by
            rw [statusCalls_cons, statusCalls_cons]
            simp
          refine ⟨Call.getBytes u :: Call.put uu f.bytes :: tail', ?_, ?_, ?_, ?_, ?_⟩
          · rw [hpt, htr']
            simp
          · rw [hsc2]; exact hsc'
          · intro q
            rw [dtcFrom_cons_nonpoll _ _ _ (isPollCall_getBytes u),
              dtcFrom_cons_nonpoll _ _ _ (isPollCall_put uu f.bytes)]
            exact hdtc' _
          · intro j hj
            rw [hsc2] at hj
            exact hok' j hj
          · rw [hpt]
            exact hsh'

/-- Facts about the upload-slot stage. -/
theorem pipeUpload_facts (tool params u sizeJ : Json) (ct : String) (w : World)
    (acc : List Call) :
    ∃ tail, (pipeUpload tool params u sizeJ ct w acc).2 = acc ++ tail ∧
      statusCalls tail ≤ retriesFuel (toolDataOf w) ∧
      (∀ q, dtcFrom q tail = true) ∧
      (∀ j, j + 1 < statusCalls tail → okNT (w.orderStatusResp j) = true) ∧
      (errShape (pipeUpload tool params u sizeJ ct w acc).1
        ∨ syncShape (pipeUpload tool params u sizeJ ct w acc).1
        ∨ pollFailShape (pipeUpload tool params u sizeJ ct w acc).1
        ∨ pollOkShape (pipeUpload tool params u sizeJ ct w acc).1) := by
  have h0 : statusCalls [Call.lxPost "/uploadImageUrl" (mkUploadBody sizeJ ct)] = 0 := by
    simp [statusCalls]
  cases hu : w.uploadInitResp with
  | netErr m =>
    have hpt : pipeUpload tool params u sizeJ ct w acc
        = (err500 m, acc ++ [Call.lxPost "/uploadImageUrl" (mkUploadBody sizeJ ct)]) := by
      simp [pipeUpload, lxResult, hu]
    exact ⟨_, by rw [hpt], by rw [h0]; exact Nat.zero_le _, fun q => by simp [dtcFrom],
      fun j hj => by rw [h0] at hj; exact absurd hj (by omega),
      Or.inl (by rw [hpt]; exact errShape_err500 m)⟩
  | ok a =>
    by_cases hus : a.status < 200 ∨ 300 ≤ a.status
    · have hpt : pipeUpload tool params u sizeJ ct w acc
          = (err500 (lxErrMsg "/uploadImageUrl" a.status a.data),
             acc ++ [Call.lxPost "/uploadImageUrl" (mkUploadBody sizeJ ct)]) := by
        simp [pipeUpload, lxResult, hu, hus]
      exact ⟨_, by rw [hpt], by rw [h0]; exact Nat.zero_le _, fun q => by simp [dtcFrom],
        fun j hj => by rw [h0] at hj; exact absurd hj (by omega),
        Or.inl (by rw [hpt]; exact errShape_err500 _)⟩
    · by_cases hsc2000 : Json.get? a.data "statusCode" = some (Json.num 2000)
      · by_cases hurls : Json.truthyOpt (Json.get2? a.data "body" "uploadImage") = false
            ∨ Json.truthyOpt (Json.get2? a.data "body" "imageUrl") = false
        · have hpt : pipeUpload tool params u sizeJ ct w acc
              = (err500 ("Missing uploadImage or imageUrl: " ++ Json.stringify a.data),
                 acc ++ [Call.lxPost "/uploadImageUrl" (mkUploadBody sizeJ ct)]) := by
            simp [pipeUpload, lxResult, hu, hus, hsc2000, hurls]
          exact ⟨_, by rw [hpt], by rw [h0]; exact Nat.zero_le _, fun q => by simp [dtcFrom],
            fun j hj => by rw [h0] at hj; exact absurd hj (by omega),
            Or.inl (by rw [hpt]; exact errShape_err500 _)⟩
        · have hpt : pipeUpload tool params u sizeJ ct w acc
              = pipeGet tool params ((Json.get2? a.data "body" "uploadImage").getD Json.null)
                  ((Json.get2? a.data "body" "imageUrl").getD Json.null) u w
                  (acc ++ [Call.lxPost "/uploadImageUrl" (mkUploadBody sizeJ ct)]) := by
            simp [pipeUpload, lxResult, hu, hus, hsc2000, hurls]
          obtain ⟨tail', htr', hsc', hdtc', hok', hsh'⟩ :=
            pipeGet_facts tool params ((Json.get2? a.data "body" "uploadImage").getD Json.null)
              ((Json.get2? a.data "body" "imageUrl").getD Json.null) u w
              (acc ++ [Call.lxPost "/uploadImageUrl" (mkUploadBody sizeJ ct)])
          have hsc2 : statusCalls (Call.lxPost "/uploadImageUrl" (mkUploadBody sizeJ ct) :: tail')
              = statusCalls tail' := by
            rw [statusCalls_cons]
            simp
          refine ⟨Call.lxPost "/uploadImageUrl" (mkUploadBody sizeJ ct) :: tail', ?_, ?_, ?_, ?_, ?_⟩
          · rw [hpt, htr']
            simp
          · rw [hsc2]; exact hsc'
          · intro q
            rw [dtcFrom_cons_nonpoll _ _ _ (isPollCall_upload _ sizeJ ct)]
            exact hdtc' _
          · intro j hj
            rw [hsc2] at hj
            exact hok' j hj
          · rw [hpt]
            exact hsh'
      · have hpt : pipeUpload tool params u sizeJ ct w acc
            = (err500 ("uploadImageUrl statusCode != 2000: " ++ Json.stringify a.data),
               acc ++ [Call.lxPost "/uploadImageUrl" (mkUploadBody sizeJ ct)]) := by
          simp [pipeUpload, lxResult, hu, hus, hsc2000]
        exact ⟨_, by rw [hpt], by rw [h0]; exact Nat.zero_le _, fun q => by simp [dtcFrom],
          fun j hj => by rw [h0] at hj; exact absurd hj (by omega),
          Or.inl (by rw [hpt]; exact errShape_err500 _)⟩

/-- Facts about the HEAD-probe stage, hence about the whole asynchronous
pipeline. -/
theorem pipeHead_facts (tool params u : Json) (w : World) (acc : List Call) :
    ∃ tail, (pipeHead tool params u w acc).2 = acc ++ tail ∧
      statusCalls tail ≤ retriesFuel (toolDataOf w) ∧
      (∀ q, dtcFrom q tail = true) ∧
      (∀ j, j + 1 < statusCalls tail → okNT (w.orderStatusResp j) = true) ∧
      (errShape (pipeHead tool params u w acc).1
        ∨ syncShape (pipeHead tool params u w acc).1
        ∨ pollFailShape (pipeHead tool params u w acc).1
        ∨ pollOkShape (pipeHead tool params u w acc).1) := by
  have h0 : statusCalls [Call.head u] = 0 := by simp [statusCalls]
  cases hh : w.headResp with
  | netErr m =>
    have hpt : pipeHead tool params u w acc = (err500 m, acc ++ [Call.head u]) := by
      simp [pipeHead, hh]
    exact ⟨_, by rw [hpt], by rw [h0]; exact Nat.zero_le _, fun q => by simp [dtcFrom],
      fun j hj => by rw [h0] at hj; exact absurd hj (by omega),
      Or.inl (by rw [hpt]; exact errShape_err500 m)⟩
  | ok hr =>
    by_cases hhs : hr.status < 200 ∨ 300 ≤ hr.status
    · have hpt : pipeHead tool params u w acc
          = (err500 ("Could not read image headers: HTTP " ++ toString hr.status),
             acc ++ [Call.head u]) := by
        simp [pipeHead, hh, hhs]
      exact ⟨_, by rw [hpt], by rw [h0]; exact Nat.zero_le _, fun q => by simp [dtcFrom],
        fun j hj => by rw [h0] at hj; exact absurd hj (by omega),
        Or.inl (by rw [hpt]; exact errShape_err500 _)⟩
    · by_cases hcl : strTruthyOpt hr.contentLength = false
      · have hpt : pipeHead tool params u w acc
            = (err500 "Bubble image has no Content-Length header", acc ++ [Call.head u]) := by
          simp [pipeHead, hh, hhs, hcl]
        exact ⟨_, by rw [hpt], by rw [h0]; exact Nat.zero_le _, fun q => by simp [dtcFrom],
          fun j hj => by rw [h0] at hj; exact absurd hj (by omega),
          Or.inl (by rw [hpt]; exact errShape_err500 _)⟩
      · have hpt : pipeHead tool params u w acc
            = pipeUpload tool params u (sizeJsonOf (jsParseInt (hr.contentLength.getD "")))
                (defaultCT hr.contentType) w (acc ++ [Call.head u]) := by
          simp [pipeHead, hh, hhs, hcl]
        obtain ⟨tail', htr', hsc', hdtc', hok', hsh'⟩ :=
          pipeUpload_facts tool params u (sizeJsonOf (jsParseInt (hr.contentLength.getD "")))
            (defaultCT hr.contentType) w (acc ++ [Call.head u])
        have hsc2 : statusCalls (Call.head u :: tail') = statusCalls tail' := by
          rw [statusCalls_cons]
          simp
        refine ⟨Call.head u :: tail', ?_, ?_, ?_, ?_, ?_⟩
        · rw [hpt, htr']
          simp
        · rw [hsc2]; exact hsc'
        · intro q
          rw [dtcFrom_cons_nonpoll _ _ _ (isPollCall_head u)]
          exact hdtc' _
        · intro j hj
          rw [hsc2] at hj
          exact hok' j hj
        · rw [hpt]
          exact hsh'

/-- Master facts about one handler execution: the number of order-status
queries is bounded by the coerced retry bound of the tool response, the
trace is delay-then-check, polling continues only past successful
non-terminal responses, and the response has one of the five source
shapes. -/
theorem runTool_facts (e : Env) (b : Json) (w : World) :
    statusCalls (runTool e b w).2 ≤ retriesFuel (toolDataOf w) ∧
    dtcFrom none (runTool e b w).2 = true ∧
    (∀ j, j + 1 < statusCalls (runTool e b w).2 → okNT (w.orderStatusResp j) = true) ∧
    respShape (runTool e b w).1 := by
  by_cases hkey : envKeyTruthy e = false
  · have hpt : runTool e b w
        = (⟨500, Json.obj [("success", Json.bool false),
                           ("error", Json.str "LIGHTX_API_KEY is not set")]⟩, []) := by
      simp [runTool, hkey]
    rw [hpt]
    exact ⟨Nat.zero_le _, rfl, fun j hj => absurd hj (by simp [statusCalls]),
      Or.inl ⟨"LIGHTX_API_KEY is not set", Or.inr rfl, rfl⟩⟩
  · by_cases htool : Json.truthyOpt (b.get? "tool") = false
    · have hpt : runTool e b w
          = (⟨400, Json.obj [("success", Json.bool false),
                             ("error", Json.str "tool is required")]⟩, []) := by
        simp [runTool, hkey, htool]
      rw [hpt]
      exact ⟨Nat.zero_le _, rfl, fun j hj => absurd hj (by simp [statusCalls]),
        Or.inl ⟨"tool is required", Or.inl rfl, rfl⟩⟩
    · by_cases ht2i : (b.get? "tool").getD Json.null = Json.str "text2image"
      · have h0 : statusCalls [Call.lxPost "/text2image" ((b.get? "params").getD (Json.obj []))]
            = 0 := by
          simp [statusCalls]
        cases ht : w.text2imageResp with
        | netErr m =>
          have hpt : runTool e b w
              = (err500 m,
                 [Call.lxPost "/text2image" ((b.get? "params").getD (Json.obj []))]) := by
            simp [runTool, hkey, htool, ht2i, lxResult, ht]
          rw [hpt]
          exact ⟨by rw [h0]; exact Nat.zero_le _, by simp [dtcFrom],
            fun j hj => by rw [h0] at hj; exact absurd hj (by omega),
            Or.inl (errShape_err500 m)⟩
        | ok a =>
          by_cases hts : a.status < 200 ∨ 300 ≤ a.status
          · have hpt : runTool e b w
                = (err500 (lxErrMsg "/text2image" a.status a.data),
                   [Call.lxPost "/text2image" ((b.get? "params").getD (Json.obj []))]) := by
              simp [runTool, hkey, htool, ht2i, lxResult, ht, hts]
            rw [hpt]
            exact ⟨by rw [h0]; exact Nat.zero_le _, by simp [dtcFrom],
              fun j hj => by rw [h0] at hj; exact absurd hj (by omega),
              Or.inl (errShape_err500 _)⟩
          · have hpt : runTool e b w
                = (⟨200, Json.obj [("success", Json.bool true),
                                   ("tool", (b.get? "tool").getD Json.null),
                                   ("raw", a.data)]⟩,
                   [Call.lxPost "/text2image" ((b.get? "params").getD (Json.obj []))]) := by
              simp [runTool, hkey, htool, ht2i, lxResult, ht, hts]
            rw [hpt]
            exact ⟨by rw [h0]; exact Nat.zero_le _, by simp [dtcFrom],
              fun j hj => by rw [h0] at hj; exact absurd hj (by omega),
              Or.inr (Or.inl ⟨(b.get? "tool").getD Json.null, a.data, rfl⟩)⟩
      · by_cases hurl : Json.truthyOpt (b.get? "imageUrl") = false
        · have hpt : runTool e b w
              = (⟨400, Json.obj [("success", Json.bool false),
                                 ("error", Json.str "imageUrl is required for this tool")]⟩,
                 []) := by
            simp [runTool, hkey, htool, ht2i, hurl]
          rw [hpt]
          exact ⟨Nat.zero_le _, rfl, fun j hj => absurd hj (by simp [statusCalls]),
            Or.inl ⟨"imageUrl is required for this tool", Or.inl rfl, rfl⟩⟩
        · have hpt : runTool e b w
              = pipeHead ((b.get? "tool").getD Json.null) ((b.get? "params").getD (Json.obj []))
                  ((b.get? "imageUrl").getD Json.null) w [] := by
            simp [runTool, hkey, htool, ht2i, hurl]
          obtain ⟨tail, htr, hsc, hdtc, hok, hsh⟩ :=
            pipeHead_facts ((b.get? "tool").getD Json.null)
              ((b.get? "params").getD (Json.obj []))
              ((b.get? "imageUrl").getD Json.null) w []
          rw [List.nil_append] at htr
          refine ⟨?_, ?_, ?_, ?_⟩
          · rw [hpt, htr]; exact hsc
          · rw [hpt, htr]; exact hdtc none
          · rw [hpt, htr]; exact hok
          · rw [hpt]
            rcases hsh with h | h | h | h
            · exact Or.inl h
            · exact Or.inr (Or.inr (Or.inl h))
            · exact Or.inr (Or.inr (Or.inr (Or.inl h)))
            · exact Or.inr (Or.inr (Or.inr (Or.inr h)))

/-! ### The non-poll requests of a trace (each upstream request other than
the repeated order-status queries is issued at most once) -/

theorem nonPollSleep_toolBody (p : String) (params fu : Json) :
    nonPollSleep (Call.lxPost p (toolBodyOf params fu)) = true := by
  simp [nonPollSleep, isSleepCall]

/-- The tool stage contributes exactly its one POST to the non-poll
requests of the trace. -/
theorem pipeTool_filter (tool params fu : Json) (w : World) (acc : List Call) :
    ((pipeTool tool params fu w acc).2).filter nonPollSleep
      = acc.filter nonPollSleep
        ++ [Call.lxPost ("/" ++ jsTemplateStr tool) (toolBodyOf params fu)] := by
  have htc := nonPollSleep_toolBody ("/" ++ jsTemplateStr tool) params fu
  cases hw : w.toolResp with
  | netErr m => simp [pipeTool, lxResult, hw, List.filter_append, List.filter_cons, htc]
  | ok a =>
    by_cases hst : a.status < 200 ∨ 300 ≤ a.status
    · simp [pipeTool, lxResult, hw, hst, List.filter_append, List.filter_cons, htc]
    · by_cases hoid : Json.truthyOpt (Json.get2? a.data "body" "orderId") = false
      · simp [pipeTool, lxResult, hw, hst, hoid, List.filter_append, List.filter_cons, htc]
      · have hpt : pipeTool tool params fu w acc
            = pipePoll tool ((Json.get2? a.data "body" "orderId").getD Json.null)
                (retriesFuel a.data) w
                (acc ++ [Call.lxPost ("/" ++ jsTemplateStr tool) (toolBodyOf params fu)]) := by
          simp [pipeTool, lxResult, hw, hst, hoid]
        obtain ⟨tail', htr', _, _, hfil', _, _⟩ :=
          pipePoll_facts tool ((Json.get2? a.data "body" "orderId").getD Json.null)
            (retriesFuel a.data) w
            (acc ++ [Call.lxPost ("/" ++ jsTemplateStr tool) (toolBodyOf params fu)])
        rw [hpt, htr', List.filter_append, hfil', List.append_nil, List.filter_append]
        simp [List.filter_cons, htc]

/-- The fetch-and-transfer stage contributes its GET, then possibly the PUT
and the tool POST. -/
theorem pipeGet_filter (tool params uu fu u : Json) (w : World) (acc : List Call) :
    ∃ suffix, ((pipeGet tool params uu fu u w acc).2).filter nonPollSleep
        = acc.filter nonPollSleep ++ Call.getBytes u :: suffix ∧
      (suffix = [] ∨ ∃ bs, suffix = [Call.put uu bs] ∨
        suffix = [Call.put uu bs,
                  Call.lxPost ("/" ++ jsTemplateStr tool) (toolBodyOf params fu)]) := by
  cases hf : w.fileResp with
  | netErr m =>
    refine ⟨[], ?_, Or.inl rfl⟩
    simp [pipeGet, hf, List.filter_append, List.filter_cons, nonPollSleep, isSleepCall]
  | ok f =>
    by_cases hfs : f.status < 200 ∨ 300 ≤ f.status
    · refine ⟨[], ?_, Or.inl rfl⟩
      simp [pipeGet, hf, hfs, List.filter_append, List.filter_cons, nonPollSleep, isSleepCall]
    · cases hp : w.putResp with
      | netErr m =>
        refine ⟨[Call.put uu f.bytes], ?_, Or.inr ⟨f.bytes, Or.inl rfl⟩⟩
        simp [pipeGet, hf, hfs, hp, List.filter_append, List.filter_cons,
          nonPollSleep, isSleepCall]
      | ok pr =>
        by_cases hps : pr.status < 200 ∨ 300 ≤ pr.status
        · refine ⟨[Call.put uu f.bytes], ?_, Or.inr ⟨f.bytes, Or.inl rfl⟩⟩
          simp [pipeGet, hf, hfs, hp, hps, List.filter_append, List.filter_cons,
            nonPollSleep, isSleepCall]
        · have hpt : pipeGet tool params uu fu u w acc
              = pipeTool tool params fu w
                  ((acc ++ [Call.getBytes u]) ++ [Call.put uu f.bytes]) := by
            simp [pipeGet, hf, hfs, hp, hps]
          refine ⟨[Call.put uu f.bytes,
                   Call.lxPost ("/" ++ jsTemplateStr tool) (toolBodyOf params fu)], ?_,
            Or.inr ⟨f.bytes, Or.inr rfl⟩⟩
          rw [hpt, pipeTool_filter, List.filter_append, List.filter_append]
          simp [List.filter_cons, nonPollSleep, isSleepCall]

/-- The upload-slot stage contributes its POST, then possibly the calls of
the later stages. -/
theorem pipeUpload_filter (tool params u sizeJ : Json) (ct : String) (w : World)
    (acc : List Call) :
    ∃ suffix, ((pipeUpload tool params u sizeJ ct w acc).2).filter nonPollSleep
        = acc.filter nonPollSleep
          ++ Call.lxPost "/uploadImageUrl" (mkUploadBody sizeJ ct) :: suffix ∧
      (∃ uu2 fu2 bs, suffix = [] ∨ suffix = [Call.getBytes u] ∨
        suffix = [Call.getBytes u, Call.put uu2 bs] ∨
        suffix = [Call.getBytes u, Call.put uu2 bs,
                  Call.lxPost ("/" ++ jsTemplateStr tool) (toolBodyOf params fu2)]) := by
  cases hu : w.uploadInitResp with
  | netErr m =>
    refine ⟨[], ?_, ⟨Json.null, Json.null, [], Or.inl rfl⟩⟩
    simp [pipeUpload, lxResult, hu, List.filter_append, List.filter_cons,
      nonPollSleep, isSleepCall]
  | ok a =>
    by_cases hus : a.status < 200 ∨ 300 ≤ a.status
    · refine ⟨[], ?_, ⟨Json.null, Json.null, [], Or.inl rfl⟩⟩
      simp [pipeUpload, lxResult, hu, hus, List.filter_append, List.filter_cons,
        nonPollSleep, isSleepCall]
    · by_cases hsc2000 : Json.get? a.data "statusCode" = some (Json.num 2000)
      · by_cases hurls : Json.truthyOpt (Json.get2? a.data "body" "uploadImage") = false
            ∨ Json.truthyOpt (Json.get2? a.data "body" "imageUrl") = false
        · refine ⟨[], ?_, ⟨Json.null, Json.null, [], Or.inl rfl⟩⟩
          simp [pipeUpload, lxResult, hu, hus, hsc2000, hurls, List.filter_append,
            List.filter_cons, nonPollSleep, isSleepCall]
        · have hpt : pipeUpload tool params u sizeJ ct w acc
              = pipeGet tool params ((Json.get2? a.data "body" "uploadImage").getD Json.null)
                  ((Json.get2? a.data "body" "imageUrl").getD Json.null) u w
                  (acc ++ [Call.lxPost "/uploadImageUrl" (mkUploadBody sizeJ ct)]) := by
            simp [pipeUpload, lxResult, hu, hus, hsc2000, hurls]
          obtain ⟨suffix, hfil, hopt⟩ :=
            pipeGet_filter tool params ((Json.get2? a.data "body" "uploadImage").getD Json.null)
              ((Json.get2? a.data "body" "imageUrl").getD Json.null) u w
              (acc ++ [Call.lxPost "/uploadImageUrl" (mkUploadBody sizeJ ct)])
          refine ⟨Call.getBytes u :: suffix, ?_, ?_⟩
          · rw [hpt, hfil, List.filter_append]
            simp [List.filter_cons, nonPollSleep, isSleepCall]
          · rcases hopt with h | ⟨bs, h | h⟩
            · exact ⟨Json.null, Json.null, [], Or.inr (Or.inl (by rw [h]))⟩
            · exact ⟨(Json.get2? a.data "body" "uploadImage").getD Json.null,
                Json.null, bs, Or.inr (Or.inr (Or.inl (by rw [h])))⟩
            · exact ⟨(Json.get2? a.data "body" "uploadImage").getD Json.null,
                (Json.get2? a.data "body" "imageUrl").getD Json.null, bs,
                Or.inr (Or.inr (Or.inr (by rw [h])))⟩
      · refine ⟨[], ?_, ⟨Json.null, Json.null, [], Or.inl rfl⟩⟩
        simp [pipeUpload, lxResult, hu, hus, hsc2000, List.filter_append, List.filter_cons,
          nonPollSleep, isSleepCall]

/-- The non-poll requests of the whole asynchronous pipeline: the HEAD
probe, then a prefix-closed choice of upload POST, GET, PUT and tool
POST, in this order, each at most once. -/
theorem pipeHead_filter (tool params u : Json) (w : World) (acc : List Call) :
    ∃ suffix, ((pipeHead tool params u w acc).2).filter nonPollSleep
        = acc.filter nonPollSleep ++ Call.head u :: suffix ∧
      (∃ sj ct2 uu2 fu2 bs, suffix = [] ∨
        suffix = [Call.lxPost "/uploadImageUrl" (mkUploadBody sj ct2)] ∨
        suffix = [Call.lxPost "/uploadImageUrl" (mkUploadBody sj ct2), Call.getBytes u] ∨
        suffix = [Call.lxPost "/uploadImageUrl" (mkUploadBody sj ct2), Call.getBytes u,
                  Call.put uu2 bs] ∨
        suffix = [Call.lxPost "/uploadImageUrl" (mkUploadBody sj ct2), Call.getBytes u,
                  Call.put uu2 bs,
                  Call.lxPost ("/" ++ jsTemplateStr tool) (toolBodyOf params fu2)]) := by
  cases hh : w.headResp with
  | netErr m =>
    refine ⟨[], ?_, ⟨Json.null, "", Json.null, Json.null, [], Or.inl rfl⟩⟩
    simp [pipeHead, hh, List.filter_append, List.filter_cons, nonPollSleep, isSleepCall]
  | ok hr =>
    by_cases hhs : hr.status < 200 ∨ 300 ≤ hr.status
    · refine ⟨[], ?_, ⟨Json.null, "", Json.null, Json.null, [], Or.inl rfl⟩⟩
      simp [pipeHead, hh, hhs, List.filter_append, List.filter_cons, nonPollSleep, isSleepCall]
    · by_cases hcl : strTruthyOpt hr.contentLength = false
      · refine ⟨[], ?_, ⟨Json.null, "", Json.null, Json.null, [], Or.inl rfl⟩⟩
        simp [pipeHead, hh, hhs, hcl, List.filter_append, List.filter_cons,
          nonPollSleep, isSleepCall]
      · have hpt : pipeHead tool params u w acc
            = pipeUpload tool params u (sizeJsonOf (jsParseInt (hr.contentLength.getD "")))
                (defaultCT hr.contentType) w (acc ++ [Call.head u]) := by
          simp [pipeHead, hh, hhs, hcl]
        obtain ⟨suffix, hfil, ⟨uu2, fu2, bs, hopt⟩⟩ :=
          pipeUpload_filter tool params u (sizeJsonOf (jsParseInt (hr.contentLength.getD "")))
            (defaultCT hr.contentType) w (acc ++ [Call.head u])
        refine ⟨Call.lxPost "/uploadImageUrl"
            (mkUploadBody (sizeJsonOf (jsParseInt (hr.contentLength.getD "")))
              (defaultCT hr.contentType)) :: suffix, ?_, ?_⟩
        · rw [hpt, hfil, List.filter_append]
          simp [List.filter_cons, nonPollSleep, isSleepCall]
        · refine ⟨sizeJsonOf (jsParseInt (hr.contentLength.getD "")), defaultCT hr.contentType,
            uu2, fu2, bs, ?_⟩
          rcases hopt with h | h | h | h
          · exact Or.inr (Or.inl (by rw [h]))
          · exact Or.inr (Or.inr (Or.inl (by rw [h])))
          · exact Or.inr (Or.inr (Or.inr (Or.inl (by rw [h]))))
          · exact Or.inr (Or.inr (Or.inr (Or.inr (by rw [h]))))

/-- In any handler execution, the non-poll upstream requests are pairwise
distinct: nothing but the order-status query is ever issued twice. -/
theorem runTool_nodup (e : Env) (b : Json) (w : World) :
    (((runTool e b w).2).filter nonPollSleep).Nodup := by
  by_cases hkey : envKeyTruthy e = false
  · simp [runTool, hkey]
  · by_cases htool : Json.truthyOpt (b.get? "tool") = false
    · simp [runTool, hkey, htool]
    · by_cases ht2i : (b.get? "tool").getD Json.null = Json.str "text2image"
      · cases ht : w.text2imageResp with
        | netErr m =>
          simp [runTool, hkey, htool, ht2i, lxResult, ht, List.filter_cons,
            nonPollSleep, isSleepCall]
        | ok a =>
          by_cases hts : a.status < 200 ∨ 300 ≤ a.status
          · simp [runTool, hkey, htool, ht2i, lxResult, ht, hts, List.filter_cons,
              nonPollSleep, isSleepCall]
          · simp [runTool, hkey, htool, ht2i, lxResult, ht, hts, List.filter_cons,
              nonPollSleep, isSleepCall]
      · by_cases hurl : Json.truthyOpt (b.get? "imageUrl") = false
        · simp [runTool, hkey, htool, ht2i, hurl]
        · have hpt : runTool e b w
              = pipeHead ((b.get? "tool").getD Json.null) ((b.get? "params").getD (Json.obj []))
                  ((b.get? "imageUrl").getD Json.null) w [] := by
            simp [runTool, hkey, htool, ht2i, hurl]
          obtain ⟨suffix, hfil, ⟨sj, ct2, uu2, fu2, bs, hopt⟩⟩ :=
            pipeHead_filter ((b.get? "tool").getD Json.null)
              ((b.get? "params").getD (Json.obj []))
              ((b.get? "imageUrl").getD Json.null) w []
          rw [hpt, hfil]
          simp only [List.filter_nil, List.nil_append]
          rcases hopt with h | h | h | h | h <;> subst h <;>
            simp [List.nodup_cons, upBody_ne_toolBody]

/-! ### Step-by-step reduction of successful executions -/

/-- After passing validation with a non-text2image tool, the handler runs
the asynchronous pipeline. -/
theorem runTool_async (e : Env) (b : Json) (w : World)
    (hkey : envKeyTruthy e = true)
    (htool : Json.truthyOpt (b.get? "tool") = true)
    (ht2i : (b.get? "tool").getD Json.null ≠ Json.str "text2image")
    (hurl : Json.truthyOpt (b.get? "imageUrl") = true) :
    runTool e b w
      = pipeHead ((b.get? "tool").getD Json.null) ((b.get? "params").getD (Json.obj []))
          ((b.get? "imageUrl").getD Json.null) w [] := by
  simp [runTool, hkey, htool, ht2i, hurl]

/-- A successful HEAD with a content length proceeds to the upload stage. -/
theorem pipeHead_happy (tool params u : Json) (w : World) (acc : List Call) (hr : HeadResp)
    (hh : w.headResp = AxiosResult.ok hr) (hh1 : 200 ≤ hr.status) (hh2 : hr.status < 300)
    (hcl : strTruthyOpt hr.contentLength = true) :
    pipeHead tool params u w acc
      = pipeUpload tool params u (sizeJsonOf (jsParseInt (hr.contentLength.getD "")))
          (defaultCT hr.contentType) w (acc ++ [Call.head u]) := by
  have hst : ¬(hr.status < 200 ∨ 300 ≤ hr.status) := by omega
  simp [pipeHead, hh, hst, hcl]

/-- A successful upload-slot response with both URLs proceeds to the
fetch-and-transfer stage. -/
theorem pipeUpload_happy (tool params u sizeJ : Json) (ct : String) (w : World)
    (acc : List Call) (a : AxResp)
    (hu : w.uploadInitResp = AxiosResult.ok a) (h1 : 200 ≤ a.status) (h2 : a.status < 300)
    (hsc : Json.get? a.data "statusCode" = some (Json.num 2000))
    (huu : Json.truthyOpt (Json.get2? a.data "body" "uploadImage") = true)
    (hfu : Json.truthyOpt (Json.get2? a.data "body" "imageUrl") = true) :
    pipeUpload tool params u sizeJ ct w acc
      = pipeGet tool params ((Json.get2? a.data "body" "uploadImage").getD Json.null)
          ((Json.get2? a.data "body" "imageUrl").getD Json.null) u w
          (acc ++ [Call.lxPost "/uploadImageUrl" (mkUploadBody sizeJ ct)]) := by
  have hst : ¬(a.status < 200 ∨ 300 ≤ a.status) := by omega
  simp [pipeUpload, lxResult, hu, hst, hsc, huu, hfu]

/-- Successful GET and PUT proceed to the tool invocation. -/
theorem pipeGet_happy (tool params uu fu u : Json) (w : World) (acc : List Call)
    (f : GetResp) (pr : PutResp)
    (hf : w.fileResp = AxiosResult.ok f) (hf1 : 200 ≤ f.status) (hf2 : f.status < 300)
    (hp : w.putResp = AxiosResult.ok pr) (hp1 : 200 ≤ pr.status) (hp2 : pr.status < 300) :
    pipeGet tool params uu fu u w acc
      = pipeTool tool params fu w ((acc ++ [Call.getBytes u]) ++ [Call.put uu f.bytes]) := by
  have hst : ¬(f.status < 200 ∨ 300 ≤ f.status) := by omega
  have hst2 : ¬(pr.status < 200 ∨ 300 ≤ pr.status) := by omega
  simp [pipeGet, hf, hst, hp, hst2]

/-- A successful tool invocation without an order id returns the
synchronous response. -/
theorem pipeTool_happy_sync (tool params fu : Json) (w : World) (acc : List Call) (a : AxResp)
    (hw : w.toolResp = AxiosResult.ok a) (h1 : 200 ≤ a.status) (h2 : a.status < 300)
    (hnoid : Json.truthyOpt (Json.get2? a.data "body" "orderId") = false) :
    pipeTool tool params fu w acc
      = (⟨200, Json.obj [("success", Json.bool true), ("tool", tool),
                         ("synchronous", Json.bool true), ("raw", a.data)]⟩,
         acc ++ [Call.lxPost ("/" ++ jsTemplateStr tool) (toolBodyOf params fu)]) := by
  have hst : ¬(a.status < 200 ∨ 300 ≤ a.status) := by omega
  simp [pipeTool, lxResult, hw, hst, hnoid]

/-- A successful tool invocation with an order id proceeds to polling. -/
theorem pipeTool_happy_poll (tool params fu : Json) (w : World) (acc : List Call) (a : AxResp)
    (hw : w.toolResp = AxiosResult.ok a) (h1 : 200 ≤ a.status) (h2 : a.status < 300)
    (hoid : Json.truthyOpt (Json.get2? a.data "body" "orderId") = true) :
    pipeTool tool params fu w acc
      = pipePoll tool ((Json.get2? a.data "body" "orderId").getD Json.null)
          (retriesFuel a.data) w
          (acc ++ [Call.lxPost ("/" ++ jsTemplateStr tool) (toolBodyOf params fu)]) := by
  have hst : ¬(a.status < 200 ∨ 300 ≤ a.status) := by omega
  simp [pipeTool, lxResult, hw, hst, hoid]

/-- A response reporting a terminal job status is not one the loop
continues past. -/
theorem not_okNT_of_terminal (r : AxiosResult AxResp) :
    isTerminalStep r = true → okNT r = false := by
  cases r with
  | netErr m => intro h; simp [isTerminalStep] at h
  | ok a =>
    intro h
    simp only [isTerminalStep, Bool.and_eq_true] at h
    simp [okNT, h.2]

/-! ### The claims -/

/-- C2: the job-status polling loop is delay-then-check — every iteration
first waits (3000 ms), then queries order status — and the total number of
order-status queries never exceeds the retry bound supplied by the remote
system in the `maxRetriesAllowed` field of the tool response. -/
theorem claim2_theorem (e : Env) (b : Json) (w : World) (m : Int)
    (hm : toolRetriesField w = some (Json.num m)) :
    statusCalls (runTool e b w).2 ≤ m.toNat
      ∧ dtcFrom none (runTool e b w).2 = true := by
  obtain ⟨h1, h2, _, _⟩ := runTool_facts e b w
  refine ⟨?_, h2⟩
  have hf : retriesFuel (toolDataOf w) = m.toNat := by
    unfold retriesFuel
    unfold toolRetriesField at hm
    rw [hm]
  rwa [hf] at h1

/-- Witness for C2 at a concrete run: retry bound 2, pending job, so
exactly two delay-then-check queries are made. -/
theorem claim2_witness :
    statusCalls (runTool sampleEnv sampleBody
        (asyncWorld (orderToolBody (some (Json.num 2))) (fun _ => pendingStatus))).2
      ≤ (2 : Int).toNat
    ∧ dtcFrom none (runTool sampleEnv sampleBody
        (asyncWorld (orderToolBody (some (Json.num 2))) (fun _ => pendingStatus))).2 = true :=
  claim2_theorem sampleEnv sampleBody
    (asyncWorld (orderToolBody (some (Json.num 2))) (fun _ => pendingStatus)) 2 (by decide)

/-- C6: polling runs until a terminal state — after an order-status query
reports `active` or `failed` the handler issues no further query, and a
query is issued past an earlier one only when that one resolved with a 2xx
status and a non-terminal job status. -/
theorem claim6_theorem (e : Env) (b : Json) (w : World) :
    statusCalls (runTool e b w).2 ≤ retriesFuel (toolDataOf w) ∧
    (∀ j, j + 1 < statusCalls (runTool e b w).2 → okNT (w.orderStatusResp j) = true) ∧
    (∀ j, j < statusCalls (runTool e b w).2 → isTerminalStep (w.orderStatusResp j) = true →
      statusCalls (runTool e b w).2 = j + 1) := by
  obtain ⟨hbound, _, hok, _⟩ := runTool_facts e b w
  refine ⟨hbound, hok, fun j hj hterm => ?_⟩
  by_contra hne
  have hj1 : j + 1 < statusCalls (runTool e b w).2 := by omega
  have hgood := hok j hj1
  have hbad := not_okNT_of_terminal _ hterm
  rw [hgood] at hbad
  exact Bool.noConfusion hbad

/-- Witness for C6 at a concrete run: the first query reports `failed`,
and exactly one query is made. -/
theorem claim6_witness :
    statusCalls (runTool sampleEnv sampleBody
        (asyncWorld (orderToolBody none) (fun _ => failedStatus))).2 = 1 :=
  (claim6_theorem sampleEnv sampleBody
      (asyncWorld (orderToolBody none) (fun _ => failedStatus))).2.2 0 (by decide) (by decide)

/-- Counterexample to C3 as stated: when the polled status is `failed`,
the failure response is `{ success: false, tool, status, raw }` — it has
no `error` field, so not every failure collapses to
`{ success: false, error: <message> }`. -/
theorem claim3_counterexample :
    ((runTool sampleEnv sampleBody
        (asyncWorld (orderToolBody none) (fun _ => failedStatus))).1.body).get? "success"
      = some (Json.bool false)
    ∧ ((runTool sampleEnv sampleBody
        (asyncWorld (orderToolBody none) (fun _ => failedStatus))).1.body).get? "error"
      = none := by
  decide

/-- C3 (amended): every failure response carries `success: false` together
with either an `error` message (validation errors and the catch block) or
the `tool` field (the non-active poll exit); and no upstream request is
ever retried — every call other than the repeated order-status queries
occurs at most once in the trace. -/
theorem claim3_theorem (e : Env) (b : Json) (w : World) :
    (((runTool e b w).1.body).get? "success" = some (Json.bool false) →
      (∃ m, ((runTool e b w).1.body).get? "error" = some (Json.str m)) ∨
      (∃ t, ((runTool e b w).1.body).get? "tool" = some t)) ∧
    (∀ c, nonPollSleep c = true → ((runTool e b w).2).count c ≤ 1) := by
  constructor
  · intro hfalse
    obtain ⟨_, _, _, hsh⟩ := runTool_facts e b w
    rcases hsh with ⟨m, _, hbody⟩ | ⟨t, raw, hr⟩ | ⟨t, raw, hr⟩ | ⟨t, st, sr, hr⟩ | ⟨t, out, hr⟩
    · exact Or.inl ⟨m, by rw [hbody]; simp [Json.get?, lookupField]⟩
    · rw [hr] at hfalse
      simp [Json.get?, lookupField] at hfalse
    · rw [hr] at hfalse
      simp [Json.get?, lookupField] at hfalse
    · exact Or.inr ⟨t, by rw [hr]; simp [Json.get?, lookupField, mkFields]⟩
    · exact Or.inr ⟨t, by rw [hr]; simp [Json.get?, lookupField, mkFields]⟩
  · intro c hc
    have hnd := runTool_nodup e b w
    have h1 : ((runTool e b w).2.filter nonPollSleep).count c ≤ 1 :=
      List.nodup_iff_count_le_one.mp hnd c
    rwa [List.count_filter hc] at h1

/-- Witness for C3 at a concrete run: the HEAD probe of a full pipeline
run is issued exactly once. -/
theorem claim3_witness :
    ((runTool sampleEnv sampleBody
        (asyncWorld (orderToolBody none) (fun _ => failedStatus))).2).count
      (Call.head (Json.str "https://bubble.example/img")) ≤ 1 :=
  (claim3_theorem sampleEnv sampleBody
      (asyncWorld (orderToolBody none) (fun _ => failedStatus))).2
    (Call.head (Json.str "https://bubble.example/img")) (by decide)

/-- Counterexample to C4 as stated: when the tool response sets
`maxRetriesAllowed` to 0, the loop runs zero times and the response is
`{ success: false, tool }` — it carries neither an output payload nor any
raw diagnostic data (nor even an error message). -/
theorem claim4_counterexample :
    ((runTool sampleEnv sampleBody
        (asyncWorld (orderToolBody (some (Json.num 0))) (fun _ => pendingStatus))).1.body).get?
      "success" = some (Json.bool false)
    ∧ ((runTool sampleEnv sampleBody
        (asyncWorld (orderToolBody (some (Json.num 0))) (fun _ => pendingStatus))).1.body).get?
      "raw" = none
    ∧ ((runTool sampleEnv sampleBody
        (asyncWorld (orderToolBody (some (Json.num 0))) (fun _ => pendingStatus))).1.body).get?
      "output" = none
    ∧ ((runTool sampleEnv sampleBody
        (asyncWorld (orderToolBody (some (Json.num 0))) (fun _ => pendingStatus))).1.body).get?
      "error" = none := by
  decide

/-- C4 (amended): every response of the endpoint is a success/failure JSON
object with a boolean `success` field, and carries an error message, raw
upstream data, an output payload, or at least the tool identifier (the
poll-exit responses omit their optional `raw`/`output` fields when the
loop ran zero times or the status body lacks an output). -/
theorem claim4_theorem (e : Env) (b : Json) (w : World) :
    ∃ bb, ((runTool e b w).1.body).get? "success" = some (Json.bool bb) ∧
      ((∃ m, ((runTool e b w).1.body).get? "error" = some (Json.str m)) ∨
       (∃ v, ((runTool e b w).1.body).get? "raw" = some v) ∨
       (∃ v, ((runTool e b w).1.body).get? "output" = some v) ∨
       (∃ t, ((runTool e b w).1.body).get? "tool" = some t)) := by
  obtain ⟨_, _, _, hsh⟩ := runTool_facts e b w
  rcases hsh with ⟨m, _, hbody⟩ | ⟨t, raw, hr⟩ | ⟨t, raw, hr⟩ | ⟨t, st, sr, hr⟩ | ⟨t, out, hr⟩
  · exact ⟨false, by rw [hbody]; simp [Json.get?, lookupField],
      Or.inl ⟨m, by rw [hbody]; simp [Json.get?, lookupField]⟩⟩
  · exact ⟨true, by rw [hr]; simp [Json.get?, lookupField],
      Or.inr (Or.inl ⟨raw, by rw [hr]; simp [Json.get?, lookupField]⟩)⟩
  · exact ⟨true, by rw [hr]; simp [Json.get?, lookupField],
      Or.inr (Or.inl ⟨raw, by rw [hr]; simp [Json.get?, lookupField]⟩)⟩
  · exact ⟨false, by rw [hr]; simp [Json.get?, lookupField, mkFields],
      Or.inr (Or.inr (Or.inr ⟨t, by rw [hr]; simp [Json.get?, lookupField, mkFields]⟩))⟩
  · exact ⟨true, by rw [hr]; simp [Json.get?, lookupField, mkFields],
      Or.inr (Or.inr (Or.inr ⟨t, by rw [hr]; simp [Json.get?, lookupField, mkFields]⟩))⟩

/-- Counterexample to C5 as stated: the server registers two routes, not
exactly one — a `GET /` healthcheck in addition to the run-tool endpoint. -/
theorem claim5_counterexample : routes.length = 2 ∧ ¬ routes.length = 1 := by
  decide

/-- C5 (amended): the server exposes exactly two routes — the `GET /`
healthcheck and the `POST /lightx/run-tool` endpoint — and the run-tool
handler reads only the `imageUrl`, `tool` and `params` fields of the JSON
request body: two bodies agreeing on these three fields are handled
identically. -/
theorem claim5_theorem :
    routes = [(Method.get, "/"), (Method.post, "/lightx/run-tool")] ∧
    ∀ (e : Env) (w : World) (b b' : Json), bodyProj b = bodyProj b' →
      runTool e b w = runTool e b' w := by
  refine ⟨rfl, fun e w b b' h => ?_⟩
  simp only [bodyProj, Prod.mk.injEq] at h
  obtain ⟨h1, h2, h3⟩ := h
  simp only [runTool, h1, h2, h3]

/-- Witness for C5 at concrete bodies: two different JSON bodies agreeing
on `imageUrl`, `tool` and `params` (one carries an extra number, the other
an extra boolean) get identical responses and traces. -/
theorem claim5_witness :
    runTool sampleEnv
      (Json.obj [("tool", Json.str "cartoon"), ("extra", Json.num 1),
                 ("imageUrl", Json.str "https://bubble.example/img")]) t2iWorld
    = runTool sampleEnv
      (Json.obj [("imageUrl", Json.str "https://bubble.example/img"),
                 ("tool", Json.str "cartoon"), ("other", Json.bool true)]) t2iWorld :=
  claim5_theorem.2 sampleEnv t2iWorld
    (Json.obj [("tool", Json.str "cartoon"), ("extra", Json.num 1),
               ("imageUrl", Json.str "https://bubble.example/img")])
    (Json.obj [("imageUrl", Json.str "https://bubble.example/img"),
               ("tool", Json.str "cartoon"), ("other", Json.bool true)]) (by decide)

/-- C7: the handler keeps no cross-request state — in a server run over
any sequence of requests, the response to each request is exactly the
handler applied to that request's body, environment and upstream
behaviour, regardless of the requests processed before or after it. -/
theorem claim7_theorem (e : Env) (pre post : List (Json × World)) (b : Json) (w : World) :
    (handleSeq e (pre ++ (b, w) :: post))[pre.length]? = some (runTool e b w) := by
  induction pre with
  | nil => simp [handleSeq]
  | cons x rest ih => simpa [handleSeq] using ih

/-- C8: when the tool is `text2image`, the handler forwards `params`
directly to the remote `/text2image` endpoint and immediately returns a
success response with the raw upstream reply; the trace is that single
POST — no probe, upload slot, byte transfer, or polling — and no
hypothesis on `imageUrl` is needed. -/
theorem claim8_theorem (e : Env) (b : Json) (w : World) (a : AxResp)
    (hkey : envKeyTruthy e = true)
    (htool : b.get? "tool" = some (Json.str "text2image"))
    (ht : w.text2imageResp = AxiosResult.ok a)
    (h1 : 200 ≤ a.status) (h2 : a.status < 300) :
    runTool e b w
      = (⟨200, Json.obj [("success", Json.bool true), ("tool", Json.str "text2image"),
                         ("raw", a.data)]⟩,
         [Call.lxPost "/text2image" ((b.get? "params").getD (Json.obj []))]) := by
  have hst : ¬(a.status < 200 ∨ 300 ≤ a.status) := by omega
  simp [runTool, hkey, htool, lxResult, ht, hst, Json.truthyOpt, Json.truthy]

/-- Witness for C8 at a concrete run: a text2image request without any
`imageUrl` is answered from the single `/text2image` POST. -/
theorem claim8_witness :
    runTool sampleEnv t2iBody t2iWorld
      = (⟨200, Json.obj [("success", Json.bool true), ("tool", Json.str "text2image"),
                         ("raw", Json.obj [("ok", Json.bool true)])]⟩,
         [Call.lxPost "/text2image" ((t2iBody.get? "params").getD (Json.obj []))]) :=
  claim8_theorem sampleEnv t2iBody t2iWorld ⟨200, Json.obj [("ok", Json.bool true)]⟩
    (by decide) (by decide) rfl (by decide) (by decide)

/-- C9: when the remote tool response carries no `orderId`, the handler
returns a success response marked `synchronous: true` with the raw tool
response, and performs no order-status polling at all. -/
theorem claim9_theorem (e : Env) (b : Json) (w : World) (t u : Json) (hr : HeadResp)
    (ua a : AxResp) (f : GetResp) (pr : PutResp)
    (hkey : envKeyTruthy e = true)
    (htool : b.get? "tool" = some t) (htt : Json.truthy t = true)
    (ht2i : t ≠ Json.str "text2image")
    (hurl : b.get? "imageUrl" = some u) (htu : Json.truthy u = true)
    (hh : w.headResp = AxiosResult.ok hr) (hh1 : 200 ≤ hr.status) (hh2 : hr.status < 300)
    (hcl : strTruthyOpt hr.contentLength = true)
    (hu : w.uploadInitResp = AxiosResult.ok ua) (hu1 : 200 ≤ ua.status) (hu2 : ua.status < 300)
    (hsc : Json.get? ua.data "statusCode" = some (Json.num 2000))
    (huu : Json.truthyOpt (Json.get2? ua.data "body" "uploadImage") = true)
    (hfu : Json.truthyOpt (Json.get2? ua.data "body" "imageUrl") = true)
    (hf : w.fileResp = AxiosResult.ok f) (hf1 : 200 ≤ f.status) (hf2 : f.status < 300)
    (hp : w.putResp = AxiosResult.ok pr) (hp1 : 200 ≤ pr.status) (hp2 : pr.status < 300)
    (hw : w.toolResp = AxiosResult.ok a) (ha1 : 200 ≤ a.status) (ha2 : a.status < 300)
    (hnoid : Json.truthyOpt (Json.get2? a.data "body" "orderId") = false) :
    (runTool e b w).1
      = ⟨200, Json.obj [("success", Json.bool true), ("tool", t),
                        ("synchronous", Json.bool true), ("raw", a.data)]⟩
    ∧ statusCalls (runTool e b w).2 = 0 := by
  have htool' : Json.truthyOpt (b.get? "tool") = true := by rw [htool]; exact htt
  have ht2i' : (b.get? "tool").getD Json.null ≠ Json.str "text2image" := by
    rw [htool]; exact ht2i
  have hurl' : Json.truthyOpt (b.get? "imageUrl") = true := by rw [hurl]; exact htu
  have e1 := runTool_async e b w hkey htool' ht2i' hurl'
  rw [e1, pipeHead_happy _ _ _ _ _ hr hh hh1 hh2 hcl,
    pipeUpload_happy _ _ _ _ _ _ _ ua hu hu1 hu2 hsc huu hfu,
    pipeGet_happy _ _ _ _ _ _ _ f pr hf hf1 hf2 hp hp1 hp2,
    pipeTool_happy_sync _ _ _ _ _ a hw ha1 ha2 hnoid]
  constructor
  · simp [htool]
  · simp [statusCalls_append, statusCalls]

/-- Witness for C9 at a concrete run: a tool response without `orderId`
yields the synchronous success response and zero polls. -/
theorem claim9_witness :
    (runTool sampleEnv sampleBody
        (asyncWorld (Json.obj [("body", Json.obj [("x", Json.num 1)])])
          (fun _ => pendingStatus))).1
      = ⟨200, Json.obj [("success", Json.bool true), ("tool", Json.str "cartoon"),
                        ("synchronous", Json.bool true),
                        ("raw", Json.obj [("body", Json.obj [("x", Json.num 1)])])]⟩
    ∧ statusCalls (runTool sampleEnv sampleBody
        (asyncWorld (Json.obj [("body", Json.obj [("x", Json.num 1)])])
          (fun _ => pendingStatus))).2 = 0 :=
  claim9_theorem sampleEnv sampleBody
    (asyncWorld (Json.obj [("body", Json.obj [("x", Json.num 1)])]) (fun _ => pendingStatus))
    (Json.str "cartoon") (Json.str "https://bubble.example/img")
    ⟨200, some "10", some "image/png"⟩
    ⟨200, Json.obj [("statusCode", Json.num 2000),
       ("body", Json.obj [("uploadImage", Json.str "https://up.example/slot"),
                          ("imageUrl", Json.str "https://cdn.example/final")])]⟩
    ⟨200, Json.obj [("body", Json.obj [("x", Json.num 1)])]⟩
    ⟨200, [7, 7]⟩ ⟨200, "OK"⟩
    (by decide) (by decide) (by decide) (by decide) (by decide) (by decide)
    rfl (by decide) (by decide) (by decide)
    rfl (by decide) (by decide) (by decide) (by decide) (by decide)
    rfl (by decide) (by decide)
    rfl (by decide) (by decide)
    rfl (by decide) (by decide) (by decide)

/-- C10: when the HEAD response for the source image has no (or an empty)
`Content-Length` header, the handler fails with the 500 response naming
the missing header, and the trace is the HEAD probe alone — it never
requests an upload slot, fetches bytes, or invokes the remote tool. -/
theorem claim10_theorem (e : Env) (b : Json) (w : World) (t u : Json) (hr : HeadResp)
    (hkey : envKeyTruthy e = true)
    (htool : b.get? "tool" = some t) (htt : Json.truthy t = true)
    (ht2i : t ≠ Json.str "text2image")
    (hurl : b.get? "imageUrl" = some u) (htu : Json.truthy u = true)
    (hh : w.headResp = AxiosResult.ok hr) (hh1 : 200 ≤ hr.status) (hh2 : hr.status < 300)
    (hcl : strTruthyOpt hr.contentLength = false) :
    runTool e b w
      = (⟨500, Json.obj [("success", Json.bool false),
                         ("error", Json.str "Bubble image has no Content-Length header")]⟩,
         [Call.head u]) := by
  have htool' : Json.truthyOpt (b.get? "tool") = true := by rw [htool]; exact htt
  have ht2i' : (b.get? "tool").getD Json.null ≠ Json.str "text2image" := by
    rw [htool]; exact ht2i
  have hurl' : Json.truthyOpt (b.get? "imageUrl") = true := by rw [hurl]; exact htu
  have e1 := runTool_async e b w hkey htool' ht2i' hurl'
  have hst : ¬(hr.status < 200 ∨ 300 ≤ hr.status) := by omega
  rw [e1]
  simp [pipeHead, hh, hst, hcl, err500, hurl]

/-- Witness for C10 at a concrete run: a HEAD response without
`Content-Length` stops the pipeline after the probe. -/
theorem claim10_witness :
    runTool sampleEnv sampleBody
      (⟨AxiosResult.ok ⟨200, none, some "image/png"⟩, goodUploadInit,
        AxiosResult.netErr "unused", goodFile, goodPut,
        AxiosResult.ok ⟨200, Json.null⟩, fun _ => pendingStatus⟩ : World)
      = (⟨500, Json.obj [("success", Json.bool false),
                         ("error", Json.str "Bubble image has no Content-Length header")]⟩,
         [Call.head (Json.str "https://bubble.example/img")]) :=
  claim10_theorem sampleEnv sampleBody _ (Json.str "cartoon")
    (Json.str "https://bubble.example/img") ⟨200, none, some "image/png"⟩
    (by decide) (by decide) (by decide) (by decide) (by decide) (by decide)
    rfl (by decide) (by decide) (by decide)

/-- Counterexample to C1 as stated: a text2image request is handled with a
single `/text2image` POST — its trace contains no HEAD probe, no upload
slot request, no byte transfer and no polling, so not every incoming
request executes the 6-step pipeline. -/
theorem claim1_counterexample :
    (runTool sampleEnv t2iBody t2iWorld).2
      = [Call.lxPost "/text2image" (Json.obj [("textPrompt", Json.str "a cat")])] := by
  decide

/-- C1 (amended): for every request that reaches the asynchronous path
(valid key, truthy non-text2image tool, truthy image URL) and whose
upstream steps all succeed with an order id and a positive retry bound,
the handler executes exactly the fixed 6-step pipeline in order: (1) HEAD
probe of the source image, (2) upload-slot POST, (3) source GET, (4) slot
PUT, (5) tool POST, and (6) at least one order-status poll; text2image
requests instead make a single `/text2image` call, and a failing step
aborts the remainder. -/
theorem claim1_theorem (e : Env) (b : Json) (w : World) (t u : Json) (hr : HeadResp)
    (ua a : AxResp) (f : GetResp) (pr : PutResp)
    (hkey : envKeyTruthy e = true)
    (htool : b.get? "tool" = some t) (htt : Json.truthy t = true)
    (ht2i : t ≠ Json.str "text2image")
    (hurl : b.get? "imageUrl" = some u) (htu : Json.truthy u = true)
    (hh : w.headResp = AxiosResult.ok hr) (hh1 : 200 ≤ hr.status) (hh2 : hr.status < 300)
    (hcl : strTruthyOpt hr.contentLength = true)
    (hu : w.uploadInitResp = AxiosResult.ok ua) (hu1 : 200 ≤ ua.status) (hu2 : ua.status < 300)
    (hsc : Json.get? ua.data "statusCode" = some (Json.num 2000))
    (huu : Json.truthyOpt (Json.get2? ua.data "body" "uploadImage") = true)
    (hfu : Json.truthyOpt (Json.get2? ua.data "body" "imageUrl") = true)
    (hf : w.fileResp = AxiosResult.ok f) (hf1 : 200 ≤ f.status) (hf2 : f.status < 300)
    (hp : w.putResp = AxiosResult.ok pr) (hp1 : 200 ≤ pr.status) (hp2 : pr.status < 300)
    (hw : w.toolResp = AxiosResult.ok a) (ha1 : 200 ≤ a.status) (ha2 : a.status < 300)
    (hoid : Json.truthyOpt (Json.get2? a.data "body" "orderId") = true)
    (hfuel : 1 ≤ retriesFuel a.data) :
    ∃ k, 1 ≤ k ∧ k ≤ retriesFuel a.data ∧
      (runTool e b w).2
        = [Call.head u,
           Call.lxPost "/uploadImageUrl"
             (mkUploadBody (sizeJsonOf (jsParseInt (hr.contentLength.getD "")))
               (defaultCT hr.contentType)),
           Call.getBytes u,
           Call.put ((Json.get2? ua.data "body" "uploadImage").getD Json.null) f.bytes,
           Call.lxPost ("/" ++ jsTemplateStr t)
             (toolBodyOf ((b.get? "params").getD (Json.obj []))
               ((Json.get2? ua.data "body" "imageUrl").getD Json.null))]
          ++ pollTraceN ((Json.get2? a.data "body" "orderId").getD Json.null) k := by
  have htool' : Json.truthyOpt (b.get? "tool") = true := by rw [htool]; exact htt
  have ht2i' : (b.get? "tool").getD Json.null ≠ Json.str "text2image" := by
    rw [htool]; exact ht2i
  have hurl' : Json.truthyOpt (b.get? "imageUrl") = true := by rw [hurl]; exact htu
  have e1 := runTool_async e b w hkey htool' ht2i' hurl'
  rw [e1, pipeHead_happy _ _ _ _ _ hr hh hh1 hh2 hcl,
    pipeUpload_happy _ _ _ _ _ _ _ ua hu hu1 hu2 hsc huu hfu,
    pipeGet_happy _ _ _ _ _ _ _ f pr hf hf1 hf2 hp hp1 hp2,
    pipeTool_happy_poll _ _ _ _ _ a hw ha1 ha2 hoid]
  obtain ⟨k, hk, hk1, htr, _⟩ :=
    pollLoop_spec w.orderStatusResp ((Json.get2? a.data "body" "orderId").getD Json.null)
      (retriesFuel a.data) 0 none none
  refine ⟨k, hk1 hfuel, hk, ?_⟩
  rw [pipePoll_trace, htr]
  simp [htool, hurl]

/-- Witness for C1 at a concrete run: all six steps appear in order, with
two polls of a pending job under retry bound 2. -/
theorem claim1_witness :
    ∃ k, 1 ≤ k ∧ k ≤ 2 ∧
      (runTool sampleEnv sampleBody
          (asyncWorld (orderToolBody (some (Json.num 2))) (fun _ => pendingStatus))).2
        = [Call.head (Json.str "https://bubble.example/img"),
           Call.lxPost "/uploadImageUrl" (mkUploadBody (Json.num 10) "image/png"),
           Call.getBytes (Json.str "https://bubble.example/img"),
           Call.put (Json.str "https://up.example/slot") [7, 7],
           Call.lxPost "/cartoon"
             (toolBodyOf (Json.obj []) (Json.str "https://cdn.example/final"))]
          ++ pollTraceN (Json.str "ord-1") k :=
  claim1_theorem sampleEnv sampleBody
    (asyncWorld (orderToolBody (some (Json.num 2))) (fun _ => pendingStatus))
    (Json.str "cartoon") (Json.str "https://bubble.example/img")
    ⟨200, some "10", some "image/png"⟩
    ⟨200, Json.obj [("statusCode", Json.num 2000),
       ("body", Json.obj [("uploadImage", Json.str "https://up.example/slot"),
                          ("imageUrl", Json.str "https://cdn.example/final")])]⟩
    ⟨200, orderToolBody (some (Json.num 2))⟩
    ⟨200, [7, 7]⟩ ⟨200, "OK"⟩
    (by decide) (by decide) (by decide) (by decide) (by decide) (by decide)
    rfl (by decide) (by decide) (by decide)
    rfl (by decide) (by decide) (by decide) (by decide) (by decide)
    rfl (by decide) (by decide)
    rfl (by decide) (by decide)
    rfl (by decide) (by decide) (by decide) (by decide)

end LightxProxy
